import Mathlib

/-!
Verification of the endpoint-selection and request-forwarding engine of a
round-robin load balancer, shallowly embedded from the JavaScript source
(src/core/loadbalancer/round-robin.js, endpoint-health.js,
src/core/forwarder/request-forwarder.js).

Machine integers are modelled as Nat/Int, wall-clock instants as Int
(milliseconds), and JavaScript floating-point arithmetic as exact rationals.
Stateful classes become records with explicit state passing; calls to
Date.now() become explicit time parameters.
-/

namespace LoadBalancer

/-- Health-check configuration consumed by EndpointHealth
(config.healthCheck in the source). -/
structure HealthCheckConfig where
  failThreshold : Nat
  recoveryTimeMs : Int
deriving DecidableEq, Repr

/-- State of the EndpointHealth class: per-endpoint failure streak,
last-failure timestamp (0 meaning never, as in the source which starts
the field at 0), and EWMA-smoothed response time. The configuration is
stored in the record, as the constructor does. -/
structure EndpointHealth where
  url : String
  consecutiveFailures : Nat
  lastFailureTime : Int
  avgResponseTimeMs : ℚ
  config : HealthCheckConfig
deriving DecidableEq, Repr

namespace EndpointHealth

/-- The EndpointHealth constructor: zero failures, lastFailureTime 0,
zero average response time. -/
def mkFresh (url : String) (config : HealthCheckConfig) : EndpointHealth :=
  { url := url, consecutiveFailures := 0, lastFailureTime := 0,
    avgResponseTimeMs := 0, config := config }

/-- EndpointHealth.isHealthy: when consecutiveFailures has reached
failThreshold, healthy iff the time since the last failure strictly
exceeds recoveryTimeMs; otherwise healthy. Date.now() is the explicit
parameter now. -/
def isHealthy (h : EndpointHealth) (now : Int) : Bool :=
  if h.config.failThreshold ≤ h.consecutiveFailures then
    decide (h.config.recoveryTimeMs < now - h.lastFailureTime)
  else
    true

/-- EndpointHealth.recordSuccess: resets the failure streak. -/
def recordSuccess (h : EndpointHealth) : EndpointHealth :=
  { h with consecutiveFailures := 0 }

/-- EndpointHealth.recordFailure: increments the failure streak and stamps
the current time. -/
def recordFailure (h : EndpointHealth) (now : Int) : EndpointHealth :=
  { h with consecutiveFailures := h.consecutiveFailures + 1,
           lastFailureTime := now }

/-- EndpointHealth.updateResponseTime: when the stored average is 0 the
sample is assigned directly, otherwise the exponential moving average
with alpha = 0.3 is applied. -/
def updateResponseTime (h : EndpointHealth) (responseTimeMs : ℚ) : EndpointHealth :=
  if h.avgResponseTimeMs = 0 then
    { h with avgResponseTimeMs := responseTimeMs }
  else
    { h with avgResponseTimeMs :=
        (3 / 10) * responseTimeMs + (1 - 3 / 10) * h.avgResponseTimeMs }

end EndpointHealth

/-- Stored average after feeding a list of samples, in order, to
updateResponseTime starting from a fresh EndpointHealth record. -/
def avgAfter (cfg : HealthCheckConfig) (samples : List ℚ) : ℚ :=
  (samples.foldl EndpointHealth.updateResponseTime
    (EndpointHealth.mkFresh "" cfg)).avgResponseTimeMs

/-- Modelled from the spec: the EWMA rule as the spec words it, with no
zero-average special case after the first sample — the first sample is
stored directly and every later sample s moves the average to
0.3 * s + 0.7 * avg. Used to compare the source rule against the spec
rule for claim C7. -/
def avgAfterSpec (samples : List ℚ) : ℚ :=
  match samples with
  | [] => 0
  | s :: rest => rest.foldl (fun avg x => (3 / 10) * x + (7 / 10) * avg) s

/-- State of the RoundRobinLoadBalancer class: the fixed endpoint list,
the rotation cursor, and the endpoint-to-health map (the JavaScript Map,
modelled as a partial lookup function: none for keys never inserted). -/
structure RoundRobinLoadBalancer where
  endpoints : List String
  currentIndex : Nat
  health : String → Option EndpointHealth
  config : HealthCheckConfig

namespace RoundRobinLoadBalancer

/-- The RoundRobinLoadBalancer constructor: cursor 0, and one fresh
EndpointHealth record stored per configured endpoint. -/
def make (endpoints : List String) (config : HealthCheckConfig) :
    RoundRobinLoadBalancer :=
  { endpoints := endpoints, currentIndex := 0,
    health := fun ep =>
      if endpoints.contains ep then some (EndpointHealth.mkFresh ep config)
      else none,
    config := config }

/-- Replaces the health record stored for one endpoint (the in-place
mutation of the record held by the Map, made explicit). -/
def setHealth (lb : RoundRobinLoadBalancer) (ep : String)
    (h : EndpointHealth) : RoundRobinLoadBalancer :=
  { lb with health := fun x => if x = ep then some h else lb.health x }

/-- The scan loop inside getEndpointRoundRobin: starting from loop
counter i with rem iterations left (rem starts at the pool size), visit
index (currentIndex + i) mod N; skip the endpoint when its health record
is missing or unhealthy, and return the first index whose endpoint is
healthy, or none when the scan is exhausted. -/
def rrScan (lb : RoundRobinLoadBalancer) (now : Int) (i : Nat) :
    Nat → Option Nat
  | 0 => none
  | rem + 1 =>
    let index := (lb.currentIndex + i) % lb.endpoints.length
    let endpoint := lb.endpoints.getD index ""
    match lb.health endpoint with
    | none => rrScan lb now (i + 1) rem
    | some h =>
      if h.isHealthy now then some index
      else rrScan lb now (i + 1) rem

/-- getEndpointRoundRobin: scan at most N endpoints from the cursor for a
healthy one; on a hit, return it and advance the cursor to one past its
index (mod N); otherwise return the endpoint at the cursor as a last
resort, still advancing the cursor. Only reached with a non-empty pool
(the caller guards the empty case). -/
def getEndpointRoundRobin (lb : RoundRobinLoadBalancer) (now : Int) :
    String × RoundRobinLoadBalancer :=
  match rrScan lb now 0 lb.endpoints.length with
  | some index =>
    (lb.endpoints.getD index "",
     { lb with currentIndex := (index + 1) % lb.endpoints.length })
  | none =>
    let index := lb.currentIndex
    (lb.endpoints.getD index "",
     { lb with currentIndex := (lb.currentIndex + 1) % lb.endpoints.length })

/-- getNextEndpoint with usePerformanceBasedRouting = false: with the flag
false the performance-based branch is skipped, so the call is the empty
pool check followed by getEndpointRoundRobin. Every claim below exercises
the selector through this path. -/
def getNextEndpoint (lb : RoundRobinLoadBalancer) (now : Int) :
    Option String × RoundRobinLoadBalancer :=
  if lb.endpoints.length = 0 then (none, lb)
  else
    let r := getEndpointRoundRobin lb now
    (some r.1, r.2)

/-- markEndpointSuccess: records a success against the endpoint's health
record; a no-op when the endpoint is unknown to the map. -/
def markEndpointSuccess (lb : RoundRobinLoadBalancer) (ep : String) :
    RoundRobinLoadBalancer :=
  match lb.health ep with
  | none => lb
  | some h => lb.setHealth ep h.recordSuccess

/-- markEndpointFailed: records a failure (with the current time) against
the endpoint's health record; a no-op when the endpoint is unknown. -/
def markEndpointFailed (lb : RoundRobinLoadBalancer) (ep : String)
    (now : Int) : RoundRobinLoadBalancer :=
  match lb.health ep with
  | none => lb
  | some h => lb.setHealth ep (h.recordFailure now)

/-- recordResponseTime: feeds a response-time sample to the endpoint's
health record; a no-op when the endpoint is unknown. -/
def recordResponseTime (lb : RoundRobinLoadBalancer) (ep : String)
    (rt : ℚ) : RoundRobinLoadBalancer :=
  match lb.health ep with
  | none => lb
  | some h => lb.setHealth ep (h.updateResponseTime rt)

/-- Convenience projection used in theorem statements: the failure streak
currently stored for an endpoint, if any. -/
def cfOf (lb : RoundRobinLoadBalancer) (ep : String) : Option Nat :=
  (lb.health ep).map (·.consecutiveFailures)

/-- Convenience predicate used in theorem statements: the endpoint has a
health record and that record is healthy at instant t. -/
def healthyAt (lb : RoundRobinLoadBalancer) (ep : String) (t : Int) : Bool :=
  match lb.health ep with
  | none => false
  | some h => h.isHealthy t

end RoundRobinLoadBalancer

/-- Response body as the forwarder sees it: either an upstream payload or
the fallback object built from an error message when an error response
carries no payload. -/
inductive Body where
  | payload (s : String)
  | errObj (message : String)
deriving DecidableEq, Repr

/-- Successful response from the HTTP client: status, headers, data. -/
structure HttpResponse where
  status : Nat
  headers : List (String × String)
  data : Body
deriving DecidableEq, Repr

/-- Response attached to a failure from the HTTP client; headers and data
may be absent (falsy in the source), in which case the forwarder
substitutes fallbacks. -/
structure ErrResponse where
  status : Nat
  headers : Option (List (String × String))
  data : Option Body
deriving DecidableEq, Repr

/-- Failure raised by the HTTP client: an optional connection-error code,
a message, and an optional attached HTTP response. -/
structure HttpError where
  code : Option String
  message : String
  response : Option ErrResponse
deriving DecidableEq, Repr

/-- Outcome of one call through the HTTP client collaborator: a response
together with its measured wall-clock duration, or a failure. -/
inductive ClientResult where
  | success (resp : HttpResponse) (responseTimeMs : ℚ)
  | failure (e : HttpError)
deriving DecidableEq, Repr

/-- Connection-error codes the classifier treats as always retryable. -/
def connectionErrorCodes : List String :=
  ["ECONNREFUSED", "ECONNABORTED", "ECONNRESET", "ETIMEDOUT"]

/-- isRetryableError: connection-error codes are retryable; with an
attached response, 5xx, 429 and 408 are retryable and every other status
is not; with no response and no recognized code, retryable by default. -/
def isRetryableError (e : HttpError) : Bool :=
  if (match e.code with
      | some c => connectionErrorCodes.contains c
      | none => false) then
    true
  else
    match e.response with
    | some r =>
      if 500 ≤ r.status ∧ r.status < 600 then true
      else if r.status = 429 then true
      else if r.status = 408 then true
      else false
    | none => true

/-- Status attached to a failure, if any; shorthand for theorem
statements. -/
def HttpError.statusOf (e : HttpError) : Option Nat :=
  e.response.map (·.status)

/-- What forwardRequest produces: a response record returned to the
caller (both the success path and the non-retryable client-error path),
the thrown no-endpoints error, or the thrown all-attempts-exhausted error
carrying the attempt count and the last observed failure. -/
inductive ForwardOutcome where
  | response (status : Nat) (headers : List (String × String)) (data : Body)
  | noEndpoints
  | exhausted (attempts : Nat) (lastError : Option HttpError)
deriving DecidableEq, Repr

/-- The retry loop of forwardRequest, with performanceBasedRouting =
false. client k ep is the outcome of calling endpoint ep on attempt
number k (0-based); selTime k and failTime k are the Date.now() readings
at attempt k's selection and failure handling. Alongside the outcome it
returns the final balancer state and the list of endpoints returned by
the selection calls, in order. fuel is a structural-recursion bound; run
with fuel = maxRetries - attempts it matches the source's while loop
exactly (the loop body runs at most that many more times). -/
def forwardGo (maxRetries : Nat) (client : Nat → String → ClientResult)
    (selTime failTime : Nat → Int) :
    Nat → RoundRobinLoadBalancer → Nat → Option HttpError → List String →
    ForwardOutcome × RoundRobinLoadBalancer × List String
  | 0, lb, _, lastError, chosen =>
    (.exhausted maxRetries lastError, lb, chosen)
  | fuel + 1, lb, attempts, lastError, chosen =>
    if attempts < maxRetries then
      match lb.getNextEndpoint (selTime attempts) with
      | (none, lb1) => (.noEndpoints, lb1, chosen)
      | (some ep, lb1) =>
        let chosen1 := chosen ++ [ep]
        match client attempts ep with
        | .success resp rt =>
          let lb2 := (lb1.markEndpointSuccess ep).recordResponseTime ep rt
          (.response resp.status resp.headers resp.data, lb2, chosen1)
        | .failure e =>
          let shouldRetry := isRetryableError e
          let lb2 := if shouldRetry then
              lb1.markEndpointFailed ep (failTime attempts)
            else lb1
          if !shouldRetry ∧ e.response.isSome then
            match e.response with
            | some r =>
              (.response r.status (r.headers.getD [])
                 (r.data.getD (Body.errObj e.message)), lb2, chosen1)
            | none => (.exhausted maxRetries (some e), lb2, chosen1)
          else if maxRetries ≤ attempts + 1 then
            (.exhausted maxRetries (some e), lb2, chosen1)
          else
            forwardGo maxRetries client selTime failTime fuel lb2
              (attempts + 1) (some e) chosen1
    else
      (.exhausted maxRetries lastError, lb, chosen)

/-- forwardRequest under performanceBasedRouting = false: run the retry
loop from attempt 0 with no last error. -/
def forwardRequest (maxRetries : Nat)
    (client : Nat → String → ClientResult) (selTime failTime : Nat → Int)
    (lb : RoundRobinLoadBalancer) :
    ForwardOutcome × RoundRobinLoadBalancer × List String :=
  forwardGo maxRetries client selTime failTime maxRetries lb 0 none []

/-- Runs k consecutive getNextEndpoint(false) calls; the i-th call is made
at instant times i. Returns the selected endpoints in order and the final
selector state. -/
def getNextSeq : (Nat → Int) → Nat → RoundRobinLoadBalancer →
    List (Option String) × RoundRobinLoadBalancer
  | _, 0, lb => ([], lb)
  | times, k + 1, lb =>
    let r := lb.getNextEndpoint (times 0)
    let rest := getNextSeq (fun i => times (i + 1)) k r.2
    (r.1 :: rest.1, rest.2)

/-- One mutating operation on the selector, for stating state invariants
over arbitrary call sequences: a selection call (at some instant), or one
of the three feedback calls. -/
inductive LBOp where
  | getNext (t : Int)
  | markSuccess (ep : String)
  | markFailed (ep : String) (t : Int)
  | recordTime (ep : String) (rt : ℚ)

/-- Applies one operation to the selector state. -/
def applyOp (lb : RoundRobinLoadBalancer) : LBOp → RoundRobinLoadBalancer
  | .getNext t => (lb.getNextEndpoint t).2
  | .markSuccess ep => lb.markEndpointSuccess ep
  | .markFailed ep t => lb.markEndpointFailed ep t
  | .recordTime ep rt => lb.recordResponseTime ep rt

theorem foldl_updateResponseTime_pos (rest : List ℚ) :
    ∀ h : EndpointHealth, 0 < h.avgResponseTimeMs → (∀ x ∈ rest, 0 ≤ x) →
      0 < (rest.foldl EndpointHealth.updateResponseTime h).avgResponseTimeMs ∧
      (rest.foldl EndpointHealth.updateResponseTime h).avgResponseTimeMs =
        rest.foldl (fun avg x => (3 / 10) * x + (7 / 10) * avg)
          h.avgResponseTimeMs := by
  induction rest with
  | nil => intro h hpos _; exact ⟨hpos, rfl⟩
  | cons x rest ih =>
    intro h hpos hnn
    have hx : (0 : ℚ) ≤ x := hnn x (List.mem_cons_self x rest)
    have hne : h.avgResponseTimeMs ≠ 0 := ne_of_gt hpos
    have hstep : h.updateResponseTime x =
        { h with avgResponseTimeMs :=
            (3 / 10) * x + (1 - 3 / 10) * h.avgResponseTimeMs } := by
      simp [EndpointHealth.updateResponseTime, hne]
    have hpos' : 0 < (h.updateResponseTime x).avgResponseTimeMs := by
      rw [hstep]; dsimp only; nlinarith
    have hrest : ∀ y ∈ rest, (0 : ℚ) ≤ y := fun y hy =>
      hnn y (List.mem_cons_of_mem x hy)
    obtain ⟨hp, he⟩ := ih (h.updateResponseTime x) hpos' hrest
    refine ⟨by simpa using hp, ?_⟩
    simp only [List.foldl_cons]
    rw [he, hstep]
    norm_num
/-- Helper: the nested status tests of isRetryableError, as a
proposition. -/
theorem statusRetryable_iff (s : Nat) :
    (if 500 ≤ s ∧ s < 600 then true
     else if s = 429 then true
     else if s = 408 then true
     else false) = true ↔
      (500 ≤ s ∧ s < 600 ∨ s = 429 ∨ s = 408) := by
  split_ifs with h1 h2 h3 <;> simp_all

/-- C2. Health threshold and automatic recovery: with failThreshold = 3,
after exactly 3 consecutive recordFailure calls (at instants t1, t2, t3)
on a fresh record and no intervening recordSuccess, isHealthy is false at
every instant whose elapsed time since the last failure is at most
recoveryTimeMs, and true at every later instant, with no recordSuccess
needed. -/
theorem health_threshold_recovery (u : String) (R t1 t2 t3 now : Int) :
    (((((EndpointHealth.mkFresh u ⟨3, R⟩).recordFailure t1).recordFailure
          t2).recordFailure t3).isHealthy now = false ↔ now - t3 ≤ R) ∧
    (((((EndpointHealth.mkFresh u ⟨3, R⟩).recordFailure t1).recordFailure
          t2).recordFailure t3).isHealthy now = true ↔ R < now - t3) := by
  simp [EndpointHealth.mkFresh, EndpointHealth.recordFailure,
    EndpointHealth.isHealthy]

/-- C3. Retryability classification: a failure is retryable exactly when
it carries a recognized connection-error code, or carries a response with
status in 500..599 or equal to 429 or 408, or carries no response and no
recognized connection-error code; consequently every other failure with a
response (any other 4xx in particular) is not retryable. -/
theorem isRetryableError_classification (e : HttpError) :
    isRetryableError e = true ↔
      ((∃ c, e.code = some c ∧ c ∈ connectionErrorCodes) ∨
       (∃ r, e.response = some r ∧
          (500 ≤ r.status ∧ r.status < 600 ∨ r.status = 429 ∨
            r.status = 408)) ∨
       (e.response = none ∧
         ∀ c, e.code = some c → c ∉ connectionErrorCodes)) := by
  obtain ⟨code, msg, resp⟩ := e
  cases code with
  | none =>
    cases resp with
    | none => simp [isRetryableError]
    | some r =>
      simp only [isRetryableError]
      rw [if_neg (by simp : ¬(false = true)), statusRetryable_iff]
      constructor
      · intro h
        exact Or.inr (Or.inl ⟨r, rfl, h⟩)
      · rintro (⟨c, hc, _⟩ | ⟨r', hr', hst⟩ | ⟨hnone, _⟩)
        · exact Option.noConfusion hc
        · injection hr' with h2
          subst h2
          exact hst
        · exact Option.noConfusion hnone
  | some c =>
    by_cases hc : c ∈ connectionErrorCodes
    · have hb : connectionErrorCodes.contains c = true := by simpa using hc
      simp only [isRetryableError]
      rw [if_pos hb]
      exact iff_of_true rfl (Or.inl ⟨c, rfl, hc⟩)
    · have hb : ¬(connectionErrorCodes.contains c = true) := by simpa using hc
      cases resp with
      | none =>
        simp only [isRetryableError]
        rw [if_neg hb]
        refine iff_of_true rfl (Or.inr (Or.inr ⟨by trivial, fun c' hc' => ?_⟩))
        injection hc' with h2
        subst h2
        exact hc
      | some r =>
        simp only [isRetryableError]
        rw [if_neg hb, statusRetryable_iff]
        constructor
        · intro h
          exact Or.inr (Or.inl ⟨r, rfl, h⟩)
        · rintro (⟨c', hc', hmem⟩ | ⟨r', hr', hst⟩ | ⟨hnone, _⟩)
          · injection hc' with h2
            subst h2
            exact absurd hmem hc
          · injection hr' with h2
            subst h2
            exact hst
          · exact Option.noConfusion hnone

/-- Helper: the embedded updateResponseTime run on [150, 250] from a
fresh record yields exactly 180. -/
theorem avgAfter_150_250 (cfg : HealthCheckConfig) :
    avgAfter cfg [150, 250] = 180 := by
  norm_num [avgAfter, EndpointHealth.mkFresh,
    EndpointHealth.updateResponseTime]

/-- C7, counterexample. The claim asserts that the sample sequence
[150, 250] yields exactly 190; the embedded updateResponseTime yields
180 (which is the value of the claimed formula 0.3 * 250 + 0.7 * 150),
so the claimed final value 190 is false. -/
theorem ewma_150_250_ne_190 :
    avgAfter ⟨3, 5000⟩ [150, 250] = 180 ∧
    avgAfter ⟨3, 5000⟩ [150, 250] ≠ 190 := by
  rw [avgAfter_150_250]
  norm_num

/-- C7, amended. For every sample sequence whose first sample is positive
and whose later samples are non-negative, the first sample is stored
directly and each later sample s moves the average to
0.3 * s + 0.7 * avg (the spec-worded EWMA rule); a sample arriving while
the stored average is 0 is instead stored directly, so the rule holds as
worded only from a positive first sample on. The sequence [150, 250]
yields exactly 180, not 190. -/
theorem ewma_update_rule_amended (cfg : HealthCheckConfig) (s0 : ℚ)
    (rest : List ℚ) (h0 : 0 < s0) (hrest : ∀ x ∈ rest, 0 ≤ x) :
    avgAfter cfg (s0 :: rest) = avgAfterSpec (s0 :: rest) ∧
    avgAfter cfg [150, 250] = 180 := by
  refine ⟨?_, avgAfter_150_250 cfg⟩
  have hfirst :
      (EndpointHealth.mkFresh "" cfg).updateResponseTime s0 =
        { EndpointHealth.mkFresh "" cfg with avgResponseTimeMs := s0 } := by
    simp [EndpointHealth.mkFresh, EndpointHealth.updateResponseTime]
  have hmain := (foldl_updateResponseTime_pos rest
    ({ EndpointHealth.mkFresh "" cfg with avgResponseTimeMs := s0 })
    (by simpa using h0) hrest).2
  simp only [avgAfter, avgAfterSpec, List.foldl_cons, hfirst]
  simpa using hmain

/-- C7 amended, witness at cfg = (3, 5000), s0 = 150, rest = [250]. -/
theorem ewma_update_rule_amended_witness :
    (0 : ℚ) < 150 ∧ (∀ x ∈ ([250] : List ℚ), 0 ≤ x) ∧
    (avgAfter ⟨3, 5000⟩ (150 :: [250]) = avgAfterSpec (150 :: [250]) ∧
     avgAfter ⟨3, 5000⟩ [150, 250] = 180) :=
  ⟨by norm_num, by norm_num,
    ewma_update_rule_amended ⟨3, 5000⟩ 150 [250] (by norm_num)
      (by norm_num)⟩

/-- C9, counterexample. The claim asserts a negative sample is either
treated as 0 or rejected, both readings leaving a fresh record's stored
average at 0; feeding -50 to a fresh record stores -50, so the negative
sample flows into the stored average by direct assignment. -/
theorem negative_sample_counterexample :
    avgAfter ⟨3, 5000⟩ [-50] = -50 ∧ avgAfter ⟨3, 5000⟩ [-50] ≠ 0 := by
  norm_num [avgAfter, EndpointHealth.mkFresh,
    EndpointHealth.updateResponseTime]

/-- C9, amended. updateResponseTime performs no sign check: a negative
sample flows into the stored average (assigned directly when the stored
average is 0, EWMA-combined otherwise), strictly decreasing any
non-negative stored average — the call is neither a no-op nor a
treat-as-0. -/
theorem negative_sample_flows_in (h : EndpointHealth) (s : ℚ)
    (hs : s < 0) (havg : 0 ≤ h.avgResponseTimeMs) :
    (h.updateResponseTime s).avgResponseTimeMs < h.avgResponseTimeMs := by
  by_cases hz : h.avgResponseTimeMs = 0
  · rw [EndpointHealth.updateResponseTime, if_pos hz]
    show s < h.avgResponseTimeMs
    linarith [hz.ge]
  · rw [EndpointHealth.updateResponseTime, if_neg hz]
    show (3 / 10) * s + (1 - 3 / 10) * h.avgResponseTimeMs <
      h.avgResponseTimeMs
    have hpos : 0 < h.avgResponseTimeMs := lt_of_le_of_ne havg (Ne.symm hz)
    nlinarith

/-- C9 amended, witness: a fresh record fed -50. -/
theorem negative_sample_flows_in_witness :
    (-50 : ℚ) < 0 ∧
    (0 : ℚ) ≤ (EndpointHealth.mkFresh "" ⟨3, 5000⟩).avgResponseTimeMs ∧
    ((EndpointHealth.mkFresh "" ⟨3, 5000⟩).updateResponseTime
        (-50)).avgResponseTimeMs <
      (EndpointHealth.mkFresh "" ⟨3, 5000⟩).avgResponseTimeMs :=
  ⟨by norm_num, by norm_num [EndpointHealth.mkFresh],
    negative_sample_flows_in (EndpointHealth.mkFresh "" ⟨3, 5000⟩) (-50)
      (by norm_num) (by norm_num [EndpointHealth.mkFresh])⟩

theorem getNextEndpoint_healthy_step (lb : RoundRobinLoadBalancer)
    (t : Int) (hN : 0 < lb.endpoints.length)
    (hc : lb.currentIndex < lb.endpoints.length)
    (hH : lb.healthyAt (lb.endpoints.getD lb.currentIndex "") t = true) :
    lb.getNextEndpoint t =
      (some (lb.endpoints.getD lb.currentIndex ""),
       { lb with
          currentIndex :=
            (lb.currentIndex + 1) % lb.endpoints.length }) := by
  obtain ⟨m, hm⟩ : ∃ m, lb.endpoints.length = m + 1 :=
    ⟨lb.endpoints.length - 1, by omega⟩
  have hscan : RoundRobinLoadBalancer.rrScan lb t 0 lb.endpoints.length =
      some lb.currentIndex := by
    rw [hm]
    show RoundRobinLoadBalancer.rrScan lb t 0 (m + 1) = some lb.currentIndex
    rw [RoundRobinLoadBalancer.rrScan]
    have hidx : (lb.currentIndex + 0) % lb.endpoints.length =
        lb.currentIndex := by
      rw [Nat.add_zero, Nat.mod_eq_of_lt hc]
    rw [RoundRobinLoadBalancer.healthyAt] at hH
    revert hH
    rw [hidx]
    cases hh : lb.health (lb.endpoints.getD lb.currentIndex "") with
    | none => intro hH; exact absurd hH (by simp)
    | some h =>
      intro hH
      have hb : h.isHealthy t = true := hH
      show (if h.isHealthy t = true then some lb.currentIndex
        else lb.rrScan t (0 + 1) m) = some lb.currentIndex
      rw [if_pos hb]
  rw [RoundRobinLoadBalancer.getNextEndpoint, if_neg (by omega)]
  simp only [RoundRobinLoadBalancer.getEndpointRoundRobin, hscan]

theorem getNextEndpoint_snd (lb : RoundRobinLoadBalancer) (t : Int)
    (hN : 0 < lb.endpoints.length) :
    ∃ j, (lb.getNextEndpoint t).2 =
      { lb with currentIndex := j % lb.endpoints.length } := by
  rw [RoundRobinLoadBalancer.getNextEndpoint, if_neg (by omega)]
  rw [RoundRobinLoadBalancer.getEndpointRoundRobin]
  cases hscan : RoundRobinLoadBalancer.rrScan lb t 0 lb.endpoints.length with
  | none => exact ⟨lb.currentIndex + 1, rfl⟩
  | some index => exact ⟨index + 1, rfl⟩

theorem rrScan_all_unhealthy (lb : RoundRobinLoadBalancer) (t : Int)
    (hN : 0 < lb.endpoints.length)
    (hU : ∀ ep ∈ lb.endpoints, lb.healthyAt ep t = false) :
    ∀ rem i, RoundRobinLoadBalancer.rrScan lb t i rem = none := by
  intro rem
  induction rem with
  | zero => intro i; rfl
  | succ r ih =>
    intro i
    rw [RoundRobinLoadBalancer.rrScan]
    have hlt : (lb.currentIndex + i) % lb.endpoints.length <
        lb.endpoints.length := Nat.mod_lt _ hN
    have hmem : lb.endpoints.getD
        ((lb.currentIndex + i) % lb.endpoints.length) "" ∈ lb.endpoints := by
      rw [List.getD_eq_getElem lb.endpoints "" hlt]
      exact List.getElem_mem hlt
    have hu := hU _ hmem
    rw [RoundRobinLoadBalancer.healthyAt] at hu
    revert hu
    cases hh : lb.health (lb.endpoints.getD
        ((lb.currentIndex + i) % lb.endpoints.length) "") with
    | none => intro _; exact ih (i + 1)
    | some h =>
      intro hu
      have hb : h.isHealthy t = false := hu
      show (if h.isHealthy t = true then
          some ((lb.currentIndex + i) % lb.endpoints.length)
        else lb.rrScan t (i + 1) r) = none
      rw [if_neg (by simp [hb])]
      exact ih (i + 1)

/-- C4. Last-resort selection: on a non-empty pool in which no endpoint is
healthy, getNextEndpoint(false) still returns an endpoint — the one at
the current cursor — and advances the cursor by one modulo the pool
size. -/
theorem last_resort_selection (lb : RoundRobinLoadBalancer) (t : Int)
    (hN : 0 < lb.endpoints.length)
    (hU : ∀ ep ∈ lb.endpoints, lb.healthyAt ep t = false) :
    lb.getNextEndpoint t =
      (some (lb.endpoints.getD lb.currentIndex ""),
       { lb with
          currentIndex :=
            (lb.currentIndex + 1) % lb.endpoints.length }) := by
  rw [RoundRobinLoadBalancer.getNextEndpoint, if_neg (by omega)]
  rw [RoundRobinLoadBalancer.getEndpointRoundRobin]
  rw [rrScan_all_unhealthy lb t hN hU]

/-- C4, witness: a two-endpoint pool with failThreshold 0, so both fresh
endpoints are unhealthy at instant 0. -/
theorem last_resort_selection_witness :
    0 < (RoundRobinLoadBalancer.make ["a", "b"] ⟨0, 100⟩).endpoints.length ∧
    (∀ ep ∈ (RoundRobinLoadBalancer.make ["a", "b"] ⟨0, 100⟩).endpoints,
      (RoundRobinLoadBalancer.make ["a", "b"] ⟨0, 100⟩).healthyAt ep 0 =
        false) ∧
    (RoundRobinLoadBalancer.make ["a", "b"] ⟨0, 100⟩).getNextEndpoint 0 =
      (some ((RoundRobinLoadBalancer.make ["a", "b"]
          ⟨0, 100⟩).endpoints.getD
        (RoundRobinLoadBalancer.make ["a", "b"] ⟨0, 100⟩).currentIndex ""),
       { RoundRobinLoadBalancer.make ["a", "b"] ⟨0, 100⟩ with
          currentIndex :=
            ((RoundRobinLoadBalancer.make ["a", "b"] ⟨0, 100⟩).currentIndex
                + 1) %
              (RoundRobinLoadBalancer.make ["a", "b"]
                  ⟨0, 100⟩).endpoints.length }) :=
  ⟨by decide, by decide,
    last_resort_selection (RoundRobinLoadBalancer.make ["a", "b"] ⟨0, 100⟩)
      0 (by decide) (by decide)⟩

theorem getNextSeq_healthy (k : Nat) :
    ∀ (lb : RoundRobinLoadBalancer) (times : Nat → Int),
      0 < lb.endpoints.length →
      lb.currentIndex < lb.endpoints.length →
      (∀ i < k, ∀ ep ∈ lb.endpoints, lb.healthyAt ep (times i) = true) →
      (getNextSeq times k lb).1 =
        (List.range k).map (fun i =>
          some (lb.endpoints.getD
            ((lb.currentIndex + i) % lb.endpoints.length) "")) ∧
      (getNextSeq times k lb).2 =
        { lb with currentIndex :=
            (lb.currentIndex + k) % lb.endpoints.length } := by
  induction k with
  | zero =>
    intro lb times hN hc _
    refine ⟨rfl, ?_⟩
    show lb = { lb with
      currentIndex := (lb.currentIndex + 0) % lb.endpoints.length }
    rw [Nat.add_zero, Nat.mod_eq_of_lt hc]
  | succ k ih =>
    intro lb times hN hc hH
    have hmem : lb.endpoints.getD lb.currentIndex "" ∈ lb.endpoints := by
      rw [List.getD_eq_getElem lb.endpoints "" hc]
      exact List.getElem_mem hc
    have hH0 : lb.healthyAt (lb.endpoints.getD lb.currentIndex "")
        (times 0) = true := hH 0 (Nat.succ_pos k) _ hmem
    have hstep := getNextEndpoint_healthy_step lb (times 0) hN hc hH0
    have hc1 : (lb.currentIndex + 1) % lb.endpoints.length <
        lb.endpoints.length := Nat.mod_lt _ hN
    have hHs : ∀ i < k, ∀ ep ∈ lb.endpoints,
        lb.healthyAt ep (times (i + 1)) = true :=
      fun i hi ep hep => hH (i + 1) (by omega) ep hep
    obtain ⟨ih1, ih2⟩ := ih
      { lb with currentIndex :=
          (lb.currentIndex + 1) % lb.endpoints.length }
      (fun i => times (i + 1)) hN hc1 hHs
    have hmod : ∀ i : Nat,
        ((lb.currentIndex + 1) % lb.endpoints.length + i) %
            lb.endpoints.length =
          (lb.currentIndex + (i + 1)) % lb.endpoints.length := by
      intro i
      rw [Nat.mod_add_mod]
      congr 1
      omega
    constructor
    · show (lb.getNextEndpoint (times 0)).1 ::
          (getNextSeq (fun i => times (i + 1)) k
            (lb.getNextEndpoint (times 0)).2).1 = _
      rw [hstep]
      show some (lb.endpoints.getD lb.currentIndex "") ::
          (getNextSeq (fun i => times (i + 1)) k
            { lb with currentIndex :=
                (lb.currentIndex + 1) % lb.endpoints.length }).1 = _
      rw [ih1, List.range_succ_eq_map, List.map_cons, List.map_map]
      congr 1
      · rw [Nat.add_zero, Nat.mod_eq_of_lt hc]
      · apply List.map_congr_left
        intro i _
        show some (lb.endpoints.getD _ "") = some (lb.endpoints.getD _ "")
        rw [hmod i]
    · show (getNextSeq (fun i => times (i + 1)) k
          (lb.getNextEndpoint (times 0)).2).2 = _
      rw [hstep]
      show (getNextSeq (fun i => times (i + 1)) k
          { lb with currentIndex :=
              (lb.currentIndex + 1) % lb.endpoints.length }).2 = _
      rw [ih2]
      show ({ lb with currentIndex :=
          ((lb.currentIndex + 1) % lb.endpoints.length + k) %
            lb.endpoints.length } : RoundRobinLoadBalancer) = _
      rw [hmod k]

theorem range_map_eq_rotate (l : List String) (c : Nat) (hc : c < l.length) :
    (List.range l.length).map
        (fun i => some (l.getD ((c + i) % l.length) "")) =
      (l.rotate c).map some := by
  apply List.ext_getElem
  · simp
  · intro i h1 h2
    have hiN : i < l.length := by simpa using h1
    simp only [List.getElem_map, List.getElem_range]
    rw [List.getElem_rotate]
    rw [List.getD_eq_getElem l "" (Nat.mod_lt _ (by omega))]
    have hci : (c + i) % l.length = (i + c) % l.length := by
      rw [Nat.add_comm c i]
    simp only [hci]

/-- C1. Round-robin fairness: on a pool of N endpoints all healthy at the
instants of the calls, N consecutive getNextEndpoint(false) calls with no
intervening feedback return exactly the endpoint list rotated to start at
the current cursor — each endpoint exactly once, in list order — and the
(N+1)-th call returns the same endpoint as the first. -/
theorem round_robin_fairness (lb : RoundRobinLoadBalancer)
    (times : Nat → Int) (hN : 0 < lb.endpoints.length)
    (hc : lb.currentIndex < lb.endpoints.length)
    (hH : ∀ i < lb.endpoints.length + 1, ∀ ep ∈ lb.endpoints,
      lb.healthyAt ep (times i) = true) :
    ((getNextSeq times (lb.endpoints.length + 1) lb).1.take
        lb.endpoints.length =
      (lb.endpoints.rotate lb.currentIndex).map some) ∧
    ((getNextSeq times (lb.endpoints.length + 1) lb).1.take
        lb.endpoints.length).Perm (lb.endpoints.map some) ∧
    (getNextSeq times (lb.endpoints.length + 1) lb).1.getD
        lb.endpoints.length none =
      (getNextSeq times (lb.endpoints.length + 1) lb).1.getD 0 none := by
  obtain ⟨h1, _⟩ := getNextSeq_healthy (lb.endpoints.length + 1) lb times
    hN hc hH
  have htake : (getNextSeq times (lb.endpoints.length + 1) lb).1.take
      lb.endpoints.length =
      (lb.endpoints.rotate lb.currentIndex).map some := by
    rw [h1, ← List.map_take, List.take_range,
      Nat.min_eq_left (Nat.le_succ _), range_map_eq_rotate _ _ hc]
  refine ⟨htake, ?_, ?_⟩
  · rw [htake]
    exact (List.rotate_perm lb.endpoints lb.currentIndex).map some
  · rw [h1]
    rw [List.getD_eq_getElem _ none (by simp), List.getD_eq_getElem _ none (by simp)]
    simp only [List.getElem_map, List.getElem_range]
    congr 2
    rw [Nat.add_zero, Nat.mod_eq_of_lt hc, Nat.add_mod_right,
      Nat.mod_eq_of_lt hc]

/-- C1, witness: a fresh three-endpoint pool, all calls at instant 0. -/
theorem round_robin_fairness_witness :
    0 < (RoundRobinLoadBalancer.make ["a", "b", "c"]
        ⟨3, 5000⟩).endpoints.length ∧
    (RoundRobinLoadBalancer.make ["a", "b", "c"] ⟨3, 5000⟩).currentIndex <
      (RoundRobinLoadBalancer.make ["a", "b", "c"]
        ⟨3, 5000⟩).endpoints.length ∧
    (∀ i < (RoundRobinLoadBalancer.make ["a", "b", "c"]
        ⟨3, 5000⟩).endpoints.length + 1,
      ∀ ep ∈ (RoundRobinLoadBalancer.make ["a", "b", "c"]
        ⟨3, 5000⟩).endpoints,
      (RoundRobinLoadBalancer.make ["a", "b", "c"] ⟨3, 5000⟩).healthyAt ep
        ((fun _ => (0 : Int)) i) = true) ∧
    (((getNextSeq (fun _ => (0 : Int))
        ((RoundRobinLoadBalancer.make ["a", "b", "c"]
          ⟨3, 5000⟩).endpoints.length + 1)
        (RoundRobinLoadBalancer.make ["a", "b", "c"] ⟨3, 5000⟩)).1.take
        (RoundRobinLoadBalancer.make ["a", "b", "c"]
          ⟨3, 5000⟩).endpoints.length =
      ((RoundRobinLoadBalancer.make ["a", "b", "c"]
          ⟨3, 5000⟩).endpoints.rotate
        (RoundRobinLoadBalancer.make ["a", "b", "c"]
          ⟨3, 5000⟩).currentIndex).map some) ∧
    ((getNextSeq (fun _ => (0 : Int))
        ((RoundRobinLoadBalancer.make ["a", "b", "c"]
          ⟨3, 5000⟩).endpoints.length + 1)
        (RoundRobinLoadBalancer.make ["a", "b", "c"] ⟨3, 5000⟩)).1.take
        (RoundRobinLoadBalancer.make ["a", "b", "c"]
          ⟨3, 5000⟩).endpoints.length).Perm
      ((RoundRobinLoadBalancer.make ["a", "b", "c"]
        ⟨3, 5000⟩).endpoints.map some) ∧
    (getNextSeq (fun _ => (0 : Int))
        ((RoundRobinLoadBalancer.make ["a", "b", "c"]
          ⟨3, 5000⟩).endpoints.length + 1)
        (RoundRobinLoadBalancer.make ["a", "b", "c"] ⟨3, 5000⟩)).1.getD
        (RoundRobinLoadBalancer.make ["a", "b", "c"]
          ⟨3, 5000⟩).endpoints.length none =
      (getNextSeq (fun _ => (0 : Int))
        ((RoundRobinLoadBalancer.make ["a", "b", "c"]
          ⟨3, 5000⟩).endpoints.length + 1)
        (RoundRobinLoadBalancer.make ["a", "b", "c"] ⟨3, 5000⟩)).1.getD 0
        none) :=
  ⟨by decide, by decide, by decide,
    round_robin_fairness
      (RoundRobinLoadBalancer.make ["a", "b", "c"] ⟨3, 5000⟩)
      (fun _ => (0 : Int)) (by decide) (by decide) (by decide)⟩

theorem applyOp_endpoints (lb : RoundRobinLoadBalancer) (op : LBOp) :
    (applyOp lb op).endpoints = lb.endpoints := by
  cases op with
  | getNext t =>
    show ((lb.getNextEndpoint t).2).endpoints = lb.endpoints
    by_cases hz : lb.endpoints.length = 0
    · rw [RoundRobinLoadBalancer.getNextEndpoint, if_pos hz]
    · obtain ⟨j, hj⟩ := getNextEndpoint_snd lb t (by omega)
      rw [hj]
  | markSuccess ep =>
    show (lb.markEndpointSuccess ep).endpoints = lb.endpoints
    rw [RoundRobinLoadBalancer.markEndpointSuccess]
    cases hh : lb.health ep <;> rfl
  | markFailed ep t =>
    show (lb.markEndpointFailed ep t).endpoints = lb.endpoints
    rw [RoundRobinLoadBalancer.markEndpointFailed]
    cases hh : lb.health ep <;> rfl
  | recordTime ep rt =>
    show (lb.recordResponseTime ep rt).endpoints = lb.endpoints
    rw [RoundRobinLoadBalancer.recordResponseTime]
    cases hh : lb.health ep <;> rfl

theorem applyOp_cursor (lb : RoundRobinLoadBalancer) (op : LBOp)
    (hN : 0 < lb.endpoints.length)
    (hc : lb.currentIndex < lb.endpoints.length) :
    (applyOp lb op).currentIndex < lb.endpoints.length := by
  cases op with
  | getNext t =>
    obtain ⟨j, hj⟩ := getNextEndpoint_snd lb t hN
    show ((lb.getNextEndpoint t).2).currentIndex < lb.endpoints.length
    rw [hj]
    exact Nat.mod_lt _ hN
  | markSuccess ep =>
    show (lb.markEndpointSuccess ep).currentIndex < lb.endpoints.length
    rw [RoundRobinLoadBalancer.markEndpointSuccess]
    cases hh : lb.health ep
    · exact hc
    · exact hc
  | markFailed ep t =>
    show (lb.markEndpointFailed ep t).currentIndex < lb.endpoints.length
    rw [RoundRobinLoadBalancer.markEndpointFailed]
    cases hh : lb.health ep
    · exact hc
    · exact hc
  | recordTime ep rt =>
    show (lb.recordResponseTime ep rt).currentIndex < lb.endpoints.length
    rw [RoundRobinLoadBalancer.recordResponseTime]
    cases hh : lb.health ep
    · exact hc
    · exact hc

theorem foldl_applyOp_invariant (ops : List LBOp) :
    ∀ lb : RoundRobinLoadBalancer, 0 < lb.endpoints.length →
      lb.currentIndex < lb.endpoints.length →
      (ops.foldl applyOp lb).endpoints = lb.endpoints ∧
      (ops.foldl applyOp lb).currentIndex < lb.endpoints.length := by
  induction ops with
  | nil => intro lb _ hc; exact ⟨rfl, hc⟩
  | cons op ops ih =>
    intro lb hN hc
    have hep := applyOp_endpoints lb op
    have hcur := applyOp_cursor lb op hN hc
    obtain ⟨ih1, ih2⟩ := ih (applyOp lb op) (by rw [hep]; exact hN)
      (by rw [hep]; exact hcur)
    rw [List.foldl_cons]
    refine ⟨by rw [ih1, hep], ?_⟩
    rw [← hep]
    exact ih2

/-- C10. Cursor range invariant: for a selector constructed from a
non-empty endpoint list, after construction and after every sequence of
selection and feedback operations the endpoint list is unchanged and the
cursor stays in the interval from 0 (inclusive, the cursor being a Nat)
to the pool size (exclusive): every cursor write is reduced modulo the
pool size and the feedback operations leave the cursor alone. -/
theorem cursor_range_invariant (endpoints : List String)
    (cfg : HealthCheckConfig) (ops : List LBOp)
    (hN : 0 < endpoints.length) :
    (ops.foldl applyOp
        (RoundRobinLoadBalancer.make endpoints cfg)).endpoints =
      endpoints ∧
    (ops.foldl applyOp
        (RoundRobinLoadBalancer.make endpoints cfg)).currentIndex <
      endpoints.length :=
  foldl_applyOp_invariant ops (RoundRobinLoadBalancer.make endpoints cfg)
    hN hN

/-- C10, witness: a two-endpoint pool put through one operation of each
kind. -/
theorem cursor_range_invariant_witness :
    0 < (["a", "b"] : List String).length ∧
    (([LBOp.getNext 0, LBOp.markFailed "a" 5, LBOp.markSuccess "a",
        LBOp.recordTime "b" 120, LBOp.getNext 9].foldl applyOp
        (RoundRobinLoadBalancer.make ["a", "b"] ⟨3, 5000⟩)).endpoints =
      ["a", "b"] ∧
    ([LBOp.getNext 0, LBOp.markFailed "a" 5, LBOp.markSuccess "a",
        LBOp.recordTime "b" 120, LBOp.getNext 9].foldl applyOp
        (RoundRobinLoadBalancer.make ["a", "b"] ⟨3, 5000⟩)).currentIndex <
      (["a", "b"] : List String).length) :=
  ⟨by decide,
    cursor_range_invariant ["a", "b"] ⟨3, 5000⟩
      [LBOp.getNext 0, LBOp.markFailed "a" 5, LBOp.markSuccess "a",
        LBOp.recordTime "b" 120, LBOp.getNext 9] (by decide)⟩

theorem getNextEndpoint_preserves (lb : RoundRobinLoadBalancer) (t : Int) :
    ((lb.getNextEndpoint t).2).endpoints = lb.endpoints ∧
    ((lb.getNextEndpoint t).2).health = lb.health ∧
    ((lb.getNextEndpoint t).2).config = lb.config := by
  rw [RoundRobinLoadBalancer.getNextEndpoint]
  split
  · exact ⟨rfl, rfl, rfl⟩
  · show ((RoundRobinLoadBalancer.getEndpointRoundRobin lb t).2).endpoints =
        lb.endpoints ∧ _ ∧ _
    rw [RoundRobinLoadBalancer.getEndpointRoundRobin]
    cases hscan : RoundRobinLoadBalancer.rrScan lb t 0 lb.endpoints.length
    · exact ⟨rfl, rfl, rfl⟩
    · exact ⟨rfl, rfl, rfl⟩

theorem isRetryableError_true_of_5xx (e : HttpError) (r : ErrResponse)
    (hresp : e.response = some r) (h5a : 500 ≤ r.status)
    (h5b : r.status < 600) : isRetryableError e = true := by
  rw [isRetryableError]
  cases hm : (match e.code with
      | some c => connectionErrorCodes.contains c
      | none => false) with
  | true => rw [if_pos rfl]
  | false =>
    rw [if_neg (by simp : ¬(false = true))]
    rw [hresp]
    show (if 500 ≤ r.status ∧ r.status < 600 then true
      else if r.status = 429 then true
      else if r.status = 408 then true
      else false) = true
    rw [if_pos ⟨h5a, h5b⟩]

theorem isRetryableError_false_of_other_4xx (e : HttpError)
    (r : ErrResponse) (hresp : e.response = some r) (h5 : r.status < 500)
    (h429 : r.status ≠ 429) (h408 : r.status ≠ 408)
    (hcode : ∀ c, e.code = some c → c ∉ connectionErrorCodes) :
    isRetryableError e = false := by
  rw [isRetryableError]
  have hm : (match e.code with
      | some c => connectionErrorCodes.contains c
      | none => false) = false := by
    cases hc : e.code with
    | none => rfl
    | some c =>
      show connectionErrorCodes.contains c = false
      simpa using hcode c hc
  rw [if_neg (by rw [hm]; simp)]
  rw [hresp]
  show (if 500 ≤ r.status ∧ r.status < 600 then true
    else if r.status = 429 then true
    else if r.status = 408 then true
    else false) = false
  rw [if_neg (by omega), if_neg h429, if_neg h408]

theorem forwardGo_step_success (maxRetries : Nat)
    (client : Nat → String → ClientResult) (selTime failTime : Nat → Int)
    (fuel : Nat) (lb lb1 : RoundRobinLoadBalancer) (attempts : Nat)
    (lastError : Option HttpError) (chosen : List String) (ep : String)
    (resp : HttpResponse) (rt : ℚ)
    (hlt : attempts < maxRetries)
    (hsel : lb.getNextEndpoint (selTime attempts) = (some ep, lb1))
    (hclient : client attempts ep = .success resp rt) :
    forwardGo maxRetries client selTime failTime (fuel + 1) lb attempts
        lastError chosen =
      (.response resp.status resp.headers resp.data,
       (lb1.markEndpointSuccess ep).recordResponseTime ep rt,
       chosen ++ [ep]) := by
  rw [forwardGo, if_pos hlt, hsel]
  show (match client attempts ep with
    | .success resp rt =>
      (ForwardOutcome.response resp.status resp.headers resp.data,
       (lb1.markEndpointSuccess ep).recordResponseTime ep rt,
       chosen ++ [ep])
    | .failure e => _) = _
  rw [hclient]

theorem forwardGo_step_client_error (maxRetries : Nat)
    (client : Nat → String → ClientResult) (selTime failTime : Nat → Int)
    (fuel : Nat) (lb lb1 : RoundRobinLoadBalancer) (attempts : Nat)
    (lastError : Option HttpError) (chosen : List String) (ep : String)
    (e : HttpError) (r : ErrResponse)
    (hlt : attempts < maxRetries)
    (hsel : lb.getNextEndpoint (selTime attempts) = (some ep, lb1))
    (hclient : client attempts ep = .failure e)
    (hret : isRetryableError e = false)
    (hresp : e.response = some r) :
    forwardGo maxRetries client selTime failTime (fuel + 1) lb attempts
        lastError chosen =
      (.response r.status (r.headers.getD [])
        (r.data.getD (Body.errObj e.message)), lb1, chosen ++ [ep]) := by
  rw [forwardGo, if_pos hlt, hsel]
  show (match client attempts ep with
    | .success resp rt =>
      (ForwardOutcome.response resp.status resp.headers resp.data,
       (lb1.markEndpointSuccess ep).recordResponseTime ep rt,
       chosen ++ [ep])
    | .failure e =>
      let shouldRetry := isRetryableError e
      let lb2 := if shouldRetry then
          lb1.markEndpointFailed ep (failTime attempts)
        else lb1
      if !shouldRetry ∧ e.response.isSome then
        match e.response with
        | some r =>
          (ForwardOutcome.response r.status (r.headers.getD [])
             (r.data.getD (Body.errObj e.message)), lb2, chosen ++ [ep])
        | none =>
          (ForwardOutcome.exhausted maxRetries (some e), lb2, chosen ++ [ep])
      else if maxRetries ≤ attempts + 1 then
        (ForwardOutcome.exhausted maxRetries (some e), lb2, chosen ++ [ep])
      else
        forwardGo maxRetries client selTime failTime fuel lb2
          (attempts + 1) (some e) (chosen ++ [ep])) = _
  rw [hclient]
  show (let shouldRetry := isRetryableError e
    let lb2 := if shouldRetry then
        lb1.markEndpointFailed ep (failTime attempts)
      else lb1
    if !shouldRetry ∧ e.response.isSome then
      match e.response with
      | some r =>
        (ForwardOutcome.response r.status (r.headers.getD [])
           (r.data.getD (Body.errObj e.message)), lb2, chosen ++ [ep])
      | none =>
        (ForwardOutcome.exhausted maxRetries (some e), lb2, chosen ++ [ep])
    else if maxRetries ≤ attempts + 1 then
      (ForwardOutcome.exhausted maxRetries (some e), lb2, chosen ++ [ep])
    else
      forwardGo maxRetries client selTime failTime fuel lb2
        (attempts + 1) (some e) (chosen ++ [ep])) = _
  simp only [hret, hresp, Bool.not_false, Option.isSome_some, if_pos,
    Bool.false_eq_true, if_false, and_true]

theorem forwardGo_step_retryable (maxRetries : Nat)
    (client : Nat → String → ClientResult) (selTime failTime : Nat → Int)
    (fuel : Nat) (lb lb1 : RoundRobinLoadBalancer) (attempts : Nat)
    (lastError : Option HttpError) (chosen : List String) (ep : String)
    (e : HttpError)
    (hlt : attempts < maxRetries)
    (hsel : lb.getNextEndpoint (selTime attempts) = (some ep, lb1))
    (hclient : client attempts ep = .failure e)
    (hret : isRetryableError e = true) :
    forwardGo maxRetries client selTime failTime (fuel + 1) lb attempts
        lastError chosen =
      (if maxRetries ≤ attempts + 1 then
        (ForwardOutcome.exhausted maxRetries (some e),
         lb1.markEndpointFailed ep (failTime attempts), chosen ++ [ep])
      else
        forwardGo maxRetries client selTime failTime fuel
          (lb1.markEndpointFailed ep (failTime attempts)) (attempts + 1)
          (some e) (chosen ++ [ep])) := by
  rw [forwardGo, if_pos hlt, hsel]
  show (match client attempts ep with
    | .success resp rt =>
      (ForwardOutcome.response resp.status resp.headers resp.data,
       (lb1.markEndpointSuccess ep).recordResponseTime ep rt,
       chosen ++ [ep])
    | .failure e =>
      let shouldRetry := isRetryableError e
      let lb2 := if shouldRetry then
          lb1.markEndpointFailed ep (failTime attempts)
        else lb1
      if !shouldRetry ∧ e.response.isSome then
        match e.response with
        | some r =>
          (ForwardOutcome.response r.status (r.headers.getD [])
             (r.data.getD (Body.errObj e.message)), lb2, chosen ++ [ep])
        | none =>
          (ForwardOutcome.exhausted maxRetries (some e), lb2, chosen ++ [ep])
      else if maxRetries ≤ attempts + 1 then
        (ForwardOutcome.exhausted maxRetries (some e), lb2, chosen ++ [ep])
      else
        forwardGo maxRetries client selTime failTime fuel lb2
          (attempts + 1) (some e) (chosen ++ [ep])) = _
  rw [hclient]
  simp only [hret, if_pos, Bool.not_true, Bool.false_eq_true, false_and,
    if_false, if_true]

theorem setHealth_health_eq (lb : RoundRobinLoadBalancer) (ep : String)
    (h : EndpointHealth) : (lb.setHealth ep h).health ep = some h := by
  simp [RoundRobinLoadBalancer.setHealth]

theorem setHealth_health_ne (lb : RoundRobinLoadBalancer) (ep ep' : String)
    (h : EndpointHealth) (hne : ep' ≠ ep) :
    (lb.setHealth ep h).health ep' = lb.health ep' := by
  simp [RoundRobinLoadBalancer.setHealth, hne]

theorem make_health_mem (endpoints : List String)
    (cfg : HealthCheckConfig) (ep : String) (hmem : ep ∈ endpoints) :
    (RoundRobinLoadBalancer.make endpoints cfg).health ep =
      some (EndpointHealth.mkFresh ep cfg) := by
  show (if endpoints.contains ep then
      some (EndpointHealth.mkFresh ep cfg) else none) = _
  rw [if_pos (by simpa using hmem)]

theorem mkFresh_isHealthy (url : String) (cfg : HealthCheckConfig)
    (t : Int) (hth : 0 < cfg.failThreshold) :
    (EndpointHealth.mkFresh url cfg).isHealthy t = true := by
  rw [EndpointHealth.isHealthy]
  rw [if_neg (by show ¬(cfg.failThreshold ≤ 0); omega)]

theorem updateResponseTime_cf (h : EndpointHealth) (x : ℚ) :
    (h.updateResponseTime x).consecutiveFailures =
      h.consecutiveFailures := by
  rw [EndpointHealth.updateResponseTime]
  split
  · rfl
  · rfl

/-- C5. Client-error short-circuit: when the first chosen endpoint
answers with a non-retryable 4xx response (status in 400..499, not 408,
not 429, no connection-error code), the forwarder returns the upstream
status, headers and body unmodified after exactly one selection call, and
the health map — in particular the chosen endpoint's consecutiveFailures
— is unchanged by the call. -/
theorem client_error_short_circuit (lb : RoundRobinLoadBalancer)
    (client : Nat → String → ClientResult) (selTime failTime : Nat → Int)
    (maxRetries : Nat) (hmr : 0 < maxRetries) (ep : String)
    (hsel : (lb.getNextEndpoint (selTime 0)).1 = some ep)
    (e : HttpError) (r : ErrResponse) (hresp : e.response = some r)
    (hs : List (String × String)) (hhd : r.headers = some hs)
    (b : Body) (hbd : r.data = some b)
    (hclient : client 0 ep = .failure e)
    (h4a : 400 ≤ r.status) (h4b : r.status < 500)
    (h408 : r.status ≠ 408) (h429 : r.status ≠ 429)
    (hcode : ∀ c, e.code = some c → c ∉ connectionErrorCodes) :
    (forwardRequest maxRetries client selTime failTime lb).1 =
      ForwardOutcome.response r.status hs b ∧
    (forwardRequest maxRetries client selTime failTime lb).2.2 = [ep] ∧
    ((forwardRequest maxRetries client selTime failTime lb).2.1).health =
      lb.health ∧
    ((forwardRequest maxRetries client selTime failTime lb).2.1).cfOf ep =
      lb.cfOf ep := by
  obtain ⟨m, hm⟩ : ∃ m, maxRetries = m + 1 := ⟨maxRetries - 1, by omega⟩
  subst hm
  have hpair : lb.getNextEndpoint (selTime 0) =
      (some ep, (lb.getNextEndpoint (selTime 0)).2) := by
    cases hp : lb.getNextEndpoint (selTime 0) with
    | mk o l2 =>
      rw [hp] at hsel
      have ho : o = some ep := hsel
      rw [ho]
  have hret : isRetryableError e = false :=
    isRetryableError_false_of_other_4xx e r hresp (by omega) h429 h408 hcode
  have hstep := forwardGo_step_client_error (m + 1) client selTime failTime
    m lb ((lb.getNextEndpoint (selTime 0)).2) 0 none [] ep e r
    (by omega) hpair hclient hret hresp
  have hpres := getNextEndpoint_preserves lb (selTime 0)
  rw [forwardRequest, hstep]
  refine ⟨?_, rfl, hpres.2.1, ?_⟩
  · show ForwardOutcome.response r.status (r.headers.getD [])
      (r.data.getD (Body.errObj e.message)) = _
    rw [hhd, hbd]
    rfl
  · show ((lb.getNextEndpoint (selTime 0)).2).cfOf ep = lb.cfOf ep
    rw [RoundRobinLoadBalancer.cfOf, RoundRobinLoadBalancer.cfOf,
      hpres.2.1]

/-- C5, witness: two fresh endpoints, the first answering 404 with
concrete headers and body. -/
theorem client_error_short_circuit_witness :
    0 < 3 ∧
    ((RoundRobinLoadBalancer.make ["a", "b"]
        ⟨3, 5000⟩).getNextEndpoint ((fun _ => (0 : Int)) 0)).1 = some "a" ∧
    (HttpError.mk none "not found"
        (some ⟨404, some [("k", "v")], some (Body.payload "nf")⟩)).response =
      some ⟨404, some [("k", "v")], some (Body.payload "nf")⟩ ∧
    ((fun k _ => if k = 0 then
        ClientResult.failure (HttpError.mk none "not found"
          (some ⟨404, some [("k", "v")], some (Body.payload "nf")⟩))
      else ClientResult.success ⟨200, [], Body.payload "ok"⟩ 50) :
        Nat → String → ClientResult) 0 "a" =
      ClientResult.failure (HttpError.mk none "not found"
        (some ⟨404, some [("k", "v")], some (Body.payload "nf")⟩)) ∧
    (forwardRequest 3
        ((fun k _ => if k = 0 then
          ClientResult.failure (HttpError.mk none "not found"
            (some ⟨404, some [("k", "v")], some (Body.payload "nf")⟩))
        else ClientResult.success ⟨200, [], Body.payload "ok"⟩ 50) :
          Nat → String → ClientResult)
        (fun _ => (0 : Int)) (fun _ => (0 : Int))
        (RoundRobinLoadBalancer.make ["a", "b"] ⟨3, 5000⟩)).1 =
      ForwardOutcome.response 404 [("k", "v")] (Body.payload "nf") ∧
    (forwardRequest 3
        ((fun k _ => if k = 0 then
          ClientResult.failure (HttpError.mk none "not found"
            (some ⟨404, some [("k", "v")], some (Body.payload "nf")⟩))
        else ClientResult.success ⟨200, [], Body.payload "ok"⟩ 50) :
          Nat → String → ClientResult)
        (fun _ => (0 : Int)) (fun _ => (0 : Int))
        (RoundRobinLoadBalancer.make ["a", "b"] ⟨3, 5000⟩)).2.2 =
      ["a"] ∧
    ((forwardRequest 3
        ((fun k _ => if k = 0 then
          ClientResult.failure (HttpError.mk none "not found"
            (some ⟨404, some [("k", "v")], some (Body.payload "nf")⟩))
        else ClientResult.success ⟨200, [], Body.payload "ok"⟩ 50) :
          Nat → String → ClientResult)
        (fun _ => (0 : Int)) (fun _ => (0 : Int))
        (RoundRobinLoadBalancer.make ["a", "b"] ⟨3, 5000⟩)).2.1).cfOf "a" =
      (RoundRobinLoadBalancer.make ["a", "b"] ⟨3, 5000⟩).cfOf "a" := by
  have hmain := client_error_short_circuit
    (RoundRobinLoadBalancer.make ["a", "b"] ⟨3, 5000⟩)
    ((fun k _ => if k = 0 then
      ClientResult.failure (HttpError.mk none "not found"
        (some ⟨404, some [("k", "v")], some (Body.payload "nf")⟩))
    else ClientResult.success ⟨200, [], Body.payload "ok"⟩ 50) :
      Nat → String → ClientResult)
    (fun _ => (0 : Int)) (fun _ => (0 : Int)) 3 (by decide) "a"
    (by decide)
    (HttpError.mk none "not found"
      (some ⟨404, some [("k", "v")], some (Body.payload "nf")⟩))
    ⟨404, some [("k", "v")], some (Body.payload "nf")⟩
    (by decide) [("k", "v")] (by decide) (Body.payload "nf") (by decide)
    (by decide) (by decide) (by decide) (by decide) (by decide)
    (fun c hc => Option.noConfusion hc)
  exact ⟨by decide, by decide, by decide, by decide,
    hmain.1, hmain.2.1, hmain.2.2.2⟩

theorem setHealth_endpoints (lb : RoundRobinLoadBalancer) (ep : String)
    (h : EndpointHealth) : (lb.setHealth ep h).endpoints = lb.endpoints :=
  rfl

theorem setHealth_currentIndex (lb : RoundRobinLoadBalancer) (ep : String)
    (h : EndpointHealth) :
    (lb.setHealth ep h).currentIndex = lb.currentIndex :=
  rfl

theorem markEndpointFailed_eq (lb : RoundRobinLoadBalancer) (ep : String)
    (t : Int) (h : EndpointHealth) (hh : lb.health ep = some h) :
    lb.markEndpointFailed ep t = lb.setHealth ep (h.recordFailure t) := by
  rw [RoundRobinLoadBalancer.markEndpointFailed, hh]

theorem markEndpointSuccess_eq (lb : RoundRobinLoadBalancer) (ep : String)
    (h : EndpointHealth) (hh : lb.health ep = some h) :
    lb.markEndpointSuccess ep = lb.setHealth ep h.recordSuccess := by
  rw [RoundRobinLoadBalancer.markEndpointSuccess, hh]

theorem recordResponseTime_eq (lb : RoundRobinLoadBalancer) (ep : String)
    (rt : ℚ) (h : EndpointHealth) (hh : lb.health ep = some h) :
    lb.recordResponseTime ep rt =
      lb.setHealth ep (h.updateResponseTime rt) := by
  rw [RoundRobinLoadBalancer.recordResponseTime, hh]

theorem getNextEndpoint_pair (lb : RoundRobinLoadBalancer) (t : Int)
    (ep : String) (h : (lb.getNextEndpoint t).1 = some ep) :
    lb.getNextEndpoint t = (some ep, (lb.getNextEndpoint t).2) := by
  cases hp : lb.getNextEndpoint t with
  | mk o l2 =>
    rw [hp] at h
    have ho : o = some ep := h
    rw [ho]

/-- C8. Retry-and-recover: over a fresh pool of at least two distinct
endpoints (positive failThreshold, maxRetries at least 2), when the first
chosen endpoint A answers a 500 failure and the second chosen endpoint B
answers a success, forward returns B's response, exactly two selection
calls were made (choosing A then B), A's consecutiveFailures has gone
from 0 to 1, and B's remains 0. -/
theorem retry_and_recover (endpoints : List String)
    (cfg : HealthCheckConfig) (client : Nat → String → ClientResult)
    (selTime failTime : Nat → Int) (maxRetries : Nat)
    (hmr : 2 ≤ maxRetries) (hnd : endpoints.Nodup)
    (hN2 : 2 ≤ endpoints.length) (hth : 0 < cfg.failThreshold)
    (e : HttpError) (r : ErrResponse) (hresp : e.response = some r)
    (h500 : r.status = 500) (resp : HttpResponse) (rt : ℚ)
    (hfailA : client 0 (endpoints.getD 0 "") = .failure e)
    (hsuccB : client 1 (endpoints.getD 1 "") = .success resp rt) :
    (forwardRequest maxRetries client selTime failTime
        (RoundRobinLoadBalancer.make endpoints cfg)).1 =
      ForwardOutcome.response resp.status resp.headers resp.data ∧
    (forwardRequest maxRetries client selTime failTime
        (RoundRobinLoadBalancer.make endpoints cfg)).2.2 =
      [endpoints.getD 0 "", endpoints.getD 1 ""] ∧
    ((forwardRequest maxRetries client selTime failTime
        (RoundRobinLoadBalancer.make endpoints cfg)).2.1).cfOf
        (endpoints.getD 0 "") = some 1 ∧
    ((forwardRequest maxRetries client selTime failTime
        (RoundRobinLoadBalancer.make endpoints cfg)).2.1).cfOf
        (endpoints.getD 1 "") = some 0 := by
  obtain ⟨m, hm⟩ : ∃ m, maxRetries = m + 2 := ⟨maxRetries - 2, by omega⟩
  subst hm
  have h0N : 0 < endpoints.length := by omega
  have h1N : 1 < endpoints.length := by omega
  have hAmem : endpoints.getD 0 "" ∈ endpoints := by
    rw [List.getD_eq_getElem endpoints "" h0N]
    exact List.getElem_mem h0N
  have hBmem : endpoints.getD 1 "" ∈ endpoints := by
    rw [List.getD_eq_getElem endpoints "" h1N]
    exact List.getElem_mem h1N
  have hBA : endpoints.getD 1 "" ≠ endpoints.getD 0 "" := by
    rw [List.getD_eq_getElem endpoints "" h1N,
      List.getD_eq_getElem endpoints "" h0N]
    intro hbad
    have := (hnd.getElem_inj_iff).mp hbad
    omega
  have hh0A : (RoundRobinLoadBalancer.make endpoints cfg).health
      (endpoints.getD 0 "") =
      some (EndpointHealth.mkFresh (endpoints.getD 0 "") cfg) :=
    make_health_mem endpoints cfg _ hAmem
  have hh0B : (RoundRobinLoadBalancer.make endpoints cfg).health
      (endpoints.getD 1 "") =
      some (EndpointHealth.mkFresh (endpoints.getD 1 "") cfg) :=
    make_health_mem endpoints cfg _ hBmem
  -- first selection: the fresh endpoint at index 0 is healthy
  have hH0 : (RoundRobinLoadBalancer.make endpoints cfg).healthyAt
      (endpoints.getD 0 "") (selTime 0) = true := by
    rw [RoundRobinLoadBalancer.healthyAt, hh0A]
    exact mkFresh_isHealthy _ _ _ hth
  have hstep1 := getNextEndpoint_healthy_step
    (RoundRobinLoadBalancer.make endpoints cfg) (selTime 0) h0N h0N hH0
  have hsel1 : ((RoundRobinLoadBalancer.make endpoints cfg).getNextEndpoint
      (selTime 0)).1 = some (endpoints.getD 0 "") := by
    rw [hstep1]
    rfl
  have hpair1 := getNextEndpoint_pair
    (RoundRobinLoadBalancer.make endpoints cfg) (selTime 0) _ hsel1
  have hpres1 := getNextEndpoint_preserves
    (RoundRobinLoadBalancer.make endpoints cfg) (selTime 0)
  have hret : isRetryableError e = true :=
    isRetryableError_true_of_5xx e r hresp (by omega) (by omega)
  rw [forwardRequest, forwardGo_step_retryable (m + 2) client selTime
    failTime (m + 1)
    (RoundRobinLoadBalancer.make endpoints cfg)
    (((RoundRobinLoadBalancer.make endpoints cfg).getNextEndpoint
      (selTime 0)).2)
    0 none [] (endpoints.getD 0 "") e (by omega) hpair1 hfailA hret,
    if_neg (by omega : ¬(m + 2 ≤ 0 + 1))]
  -- rewrite the failure mark into an explicit health-map update
  have hh1A : (((RoundRobinLoadBalancer.make endpoints cfg).getNextEndpoint
      (selTime 0)).2).health (endpoints.getD 0 "") =
      some (EndpointHealth.mkFresh (endpoints.getD 0 "") cfg) := by
    rw [hpres1.2.1]
    exact hh0A
  rw [markEndpointFailed_eq _ _ (failTime 0) _ hh1A]
  -- second selection: the fresh endpoint at index 1 is healthy
  have hcur1 : (((RoundRobinLoadBalancer.make endpoints
      cfg).getNextEndpoint (selTime 0)).2).currentIndex = 1 := by
    rw [hstep1]
    show ((RoundRobinLoadBalancer.make endpoints cfg).currentIndex + 1) %
        (RoundRobinLoadBalancer.make endpoints cfg).endpoints.length = 1
    show (0 + 1) % endpoints.length = 1
    rw [Nat.zero_add, Nat.mod_eq_of_lt h1N]
  have hend2 : ((((RoundRobinLoadBalancer.make endpoints
      cfg).getNextEndpoint (selTime 0)).2).setHealth (endpoints.getD 0 "")
      ((EndpointHealth.mkFresh (endpoints.getD 0 "") cfg).recordFailure
        (failTime 0))).endpoints = endpoints := by
    rw [setHealth_endpoints, hpres1.1]
    rfl
  have hcur2 : ((((RoundRobinLoadBalancer.make endpoints
      cfg).getNextEndpoint (selTime 0)).2).setHealth (endpoints.getD 0 "")
      ((EndpointHealth.mkFresh (endpoints.getD 0 "") cfg).recordFailure
        (failTime 0))).currentIndex = 1 := by
    rw [setHealth_currentIndex, hcur1]
  have hh2B : ((((RoundRobinLoadBalancer.make endpoints
      cfg).getNextEndpoint (selTime 0)).2).setHealth (endpoints.getD 0 "")
      ((EndpointHealth.mkFresh (endpoints.getD 0 "") cfg).recordFailure
        (failTime 0))).health (endpoints.getD 1 "") =
      some (EndpointHealth.mkFresh (endpoints.getD 1 "") cfg) := by
    rw [setHealth_health_ne _ _ _ _ hBA, hpres1.2.1]
    exact hh0B
  have hH2 : ((((RoundRobinLoadBalancer.make endpoints
      cfg).getNextEndpoint (selTime 0)).2).setHealth (endpoints.getD 0 "")
      ((EndpointHealth.mkFresh (endpoints.getD 0 "") cfg).recordFailure
        (failTime 0))).healthyAt (endpoints.getD 1 "") (selTime 1) =
      true := by
    rw [RoundRobinLoadBalancer.healthyAt, hh2B]
    exact mkFresh_isHealthy _ _ _ hth
  have hH2' : ((((RoundRobinLoadBalancer.make endpoints
      cfg).getNextEndpoint (selTime 0)).2).setHealth (endpoints.getD 0 "")
      ((EndpointHealth.mkFresh (endpoints.getD 0 "") cfg).recordFailure
        (failTime 0))).healthyAt
      (((((RoundRobinLoadBalancer.make endpoints cfg).getNextEndpoint
        (selTime 0)).2).setHealth (endpoints.getD 0 "")
        ((EndpointHealth.mkFresh (endpoints.getD 0 "") cfg).recordFailure
          (failTime 0))).endpoints.getD
        (((((RoundRobinLoadBalancer.make endpoints cfg).getNextEndpoint
          (selTime 0)).2).setHealth (endpoints.getD 0 "")
          ((EndpointHealth.mkFresh (endpoints.getD 0 "")
            cfg).recordFailure (failTime 0))).currentIndex) "")
      (selTime 1) = true := by
    rw [hend2, hcur2]
    exact hH2
  have hstep2 := getNextEndpoint_healthy_step
    ((((RoundRobinLoadBalancer.make endpoints cfg).getNextEndpoint
      (selTime 0)).2).setHealth (endpoints.getD 0 "")
      ((EndpointHealth.mkFresh (endpoints.getD 0 "") cfg).recordFailure
        (failTime 0)))
    (selTime 1) (by rw [hend2]; omega) (by rw [hend2, hcur2]; omega) hH2'
  have hsel2 : (((((RoundRobinLoadBalancer.make endpoints
      cfg).getNextEndpoint (selTime 0)).2).setHealth (endpoints.getD 0 "")
      ((EndpointHealth.mkFresh (endpoints.getD 0 "") cfg).recordFailure
        (failTime 0))).getNextEndpoint (selTime 1)).1 =
      some (endpoints.getD 1 "") := by
    rw [hstep2, hend2, hcur2]
  have hpair2 := getNextEndpoint_pair _ (selTime 1) _ hsel2
  have hpres2 := getNextEndpoint_preserves
    ((((RoundRobinLoadBalancer.make endpoints cfg).getNextEndpoint
      (selTime 0)).2).setHealth (endpoints.getD 0 "")
      ((EndpointHealth.mkFresh (endpoints.getD 0 "") cfg).recordFailure
        (failTime 0)))
    (selTime 1)
  rw [forwardGo_step_success (m + 2) client selTime failTime m _ _ 1
    (some e) ([] ++ [endpoints.getD 0 ""]) (endpoints.getD 1 "") resp rt
    (by omega) hpair2 hsuccB]
  -- rewrite the success bookkeeping into explicit health-map updates
  have hh3B : ((((((RoundRobinLoadBalancer.make endpoints
      cfg).getNextEndpoint (selTime 0)).2).setHealth (endpoints.getD 0 "")
      ((EndpointHealth.mkFresh (endpoints.getD 0 "") cfg).recordFailure
        (failTime 0))).getNextEndpoint (selTime 1)).2).health
      (endpoints.getD 1 "") =
      some (EndpointHealth.mkFresh (endpoints.getD 1 "") cfg) := by
    rw [hpres2.2.1]
    exact hh2B
  rw [markEndpointSuccess_eq _ _ _ hh3B]
  have hh4B : (((((((RoundRobinLoadBalancer.make endpoints
      cfg).getNextEndpoint (selTime 0)).2).setHealth (endpoints.getD 0 "")
      ((EndpointHealth.mkFresh (endpoints.getD 0 "") cfg).recordFailure
        (failTime 0))).getNextEndpoint (selTime 1)).2).setHealth
      (endpoints.getD 1 "")
      ((EndpointHealth.mkFresh (endpoints.getD 1 "")
        cfg).recordSuccess)).health (endpoints.getD 1 "") =
      some ((EndpointHealth.mkFresh (endpoints.getD 1 "")
        cfg).recordSuccess) :=
    setHealth_health_eq _ _ _
  rw [recordResponseTime_eq _ _ rt _ hh4B]
  refine ⟨rfl, rfl, ?_, ?_⟩
  · rw [RoundRobinLoadBalancer.cfOf,
      setHealth_health_ne _ _ _ _ (Ne.symm hBA),
      setHealth_health_ne _ _ _ _ (Ne.symm hBA), hpres2.2.1,
      setHealth_health_eq]
    rfl
  · rw [RoundRobinLoadBalancer.cfOf, setHealth_health_eq]
    show some ((((EndpointHealth.mkFresh (endpoints.getD 1 "")
      cfg).recordSuccess).updateResponseTime rt).consecutiveFailures) =
      some 0
    rw [updateResponseTime_cf]
    rfl

/-- C6, counterexample. The claim, quantified over pools, asserts every
chosen endpoint's consecutiveFailures is incremented by exactly 1; on a
single-endpoint pool with failThreshold 3 and maxRetries 3, the one
endpoint is chosen by all 3 selection calls and ends with
consecutiveFailures 3, not 1. -/
theorem exhaustion_single_endpoint_counterexample :
    (forwardRequest 3
        (fun _ _ => ClientResult.failure
          (HttpError.mk none "err" (some (ErrResponse.mk 500 none none))))
        (fun _ => (0 : Int)) (fun _ => (0 : Int))
        (RoundRobinLoadBalancer.make ["a"] ⟨3, 5000⟩)).2.2 =
      ["a", "a", "a"] ∧
    ((forwardRequest 3
        (fun _ _ => ClientResult.failure
          (HttpError.mk none "err" (some (ErrResponse.mk 500 none none))))
        (fun _ => (0 : Int)) (fun _ => (0 : Int))
        (RoundRobinLoadBalancer.make ["a"] ⟨3, 5000⟩)).2.1).cfOf "a" =
      some 3 ∧
    (3 : Nat) ≠ 1 ∧
    (forwardRequest 3
        (fun _ _ => ClientResult.failure
          (HttpError.mk none "err" (some (ErrResponse.mk 500 none none))))
        (fun _ => (0 : Int)) (fun _ => (0 : Int))
        (RoundRobinLoadBalancer.make ["a"] ⟨3, 5000⟩)).1 =
      ForwardOutcome.exhausted 3
        (some (HttpError.mk none "err"
          (some (ErrResponse.mk 500 none none)))) := by
  refine ⟨by decide, by decide, by decide, by decide⟩

/-- C6, amended. Over a pool of at least three distinct endpoints, all
fresh (a just-constructed selector) and a positive failThreshold, with
maxRetries = 3 and every attempt answered by a failure carrying status
500, forward raises the exhaustion error carrying attempt count 3 and the
last observed failure, after exactly 3 selection calls; the 3 chosen
endpoints are the first three of the pool, pairwise distinct, and each
has its consecutiveFailures incremented by exactly 1 (from 0 to 1).
On pools with fewer than maxRetries endpoints an endpoint is chosen more
than once and its counter is incremented once per choice instead. -/
theorem exhaustion_amended (endpoints : List String)
    (cfg : HealthCheckConfig) (client : Nat → String → ClientResult)
    (selTime failTime : Nat → Int) (hnd : endpoints.Nodup)
    (hN3 : 3 ≤ endpoints.length) (hth : 0 < cfg.failThreshold)
    (errOf : Nat → HttpError)
    (hclient : ∀ k < 3, client k (endpoints.getD k "") =
      .failure (errOf k))
    (hstat : ∀ k < 3, (errOf k).statusOf = some 500) :
    (forwardRequest 3 client selTime failTime (RoundRobinLoadBalancer.make endpoints cfg)).1 =
      ForwardOutcome.exhausted 3 (some (errOf 2)) ∧
    (forwardRequest 3 client selTime failTime (RoundRobinLoadBalancer.make endpoints cfg)).2.2 =
      [endpoints.getD 0 "", endpoints.getD 1 "", endpoints.getD 2 ""] ∧
    (forwardRequest 3 client selTime failTime (RoundRobinLoadBalancer.make endpoints cfg)).2.2.Nodup ∧
    ((forwardRequest 3 client selTime failTime (RoundRobinLoadBalancer.make endpoints cfg)).2.1).cfOf (endpoints.getD 0 "") = some 1 ∧
    ((forwardRequest 3 client selTime failTime (RoundRobinLoadBalancer.make endpoints cfg)).2.1).cfOf (endpoints.getD 1 "") = some 1 ∧
    ((forwardRequest 3 client selTime failTime (RoundRobinLoadBalancer.make endpoints cfg)).2.1).cfOf (endpoints.getD 2 "") = some 1 := by
  have h0N : 0 < endpoints.length := by omega
  have h1N : 1 < endpoints.length := by omega
  have h2N : 2 < endpoints.length := by omega
  have hmem : ∀ k, k < endpoints.length →
      endpoints.getD k "" ∈ endpoints := by
    intro k hk
    rw [List.getD_eq_getElem endpoints "" hk]
    exact List.getElem_mem hk
  have hgetne : ∀ j k, j < endpoints.length → k < endpoints.length →
      j ≠ k → endpoints.getD j "" ≠ endpoints.getD k "" := by
    intro j k hj hk hjk
    rw [List.getD_eq_getElem endpoints "" hj,
      List.getD_eq_getElem endpoints "" hk]
    intro hbad
    exact hjk ((hnd.getElem_inj_iff).mp hbad)
  have hne01 := hgetne 0 1 h0N h1N (by omega)
  have hne02 := hgetne 0 2 h0N h2N (by omega)
  have hne12 := hgetne 1 2 h1N h2N (by omega)
  have hh0 : ∀ k, k < endpoints.length →
      (RoundRobinLoadBalancer.make endpoints cfg).health (endpoints.getD k "") =
        some (EndpointHealth.mkFresh (endpoints.getD k "") cfg) := by
    intro k hk
    exact make_health_mem endpoints cfg _ (hmem k hk)
  -- the three failures all carry status 500, hence are retryable
  have hret : ∀ k < 3, isRetryableError (errOf k) = true := by
    intro k hk
    have hs := hstat k hk
    rw [HttpError.statusOf] at hs
    obtain ⟨r, hr, hrs⟩ := Option.map_eq_some'.mp hs
    exact isRetryableError_true_of_5xx (errOf k) r hr (by omega) (by omega)
  -- attempt 0: selects the fresh endpoint at index 0
  have hH0 : (RoundRobinLoadBalancer.make endpoints cfg).healthyAt (endpoints.getD 0 "") (selTime 0) = true := by
    rw [RoundRobinLoadBalancer.healthyAt, hh0 0 h0N]
    exact mkFresh_isHealthy _ _ _ hth
  have hstep1 := getNextEndpoint_healthy_step (RoundRobinLoadBalancer.make endpoints cfg) (selTime 0) h0N h0N hH0
  have hsel1 : ((RoundRobinLoadBalancer.make endpoints cfg).getNextEndpoint (selTime 0)).1 = some (endpoints.getD 0 "") := by
    rw [hstep1]
    rfl
  have hpair1 := getNextEndpoint_pair (RoundRobinLoadBalancer.make endpoints cfg) (selTime 0) _ hsel1
  have hpres1 := getNextEndpoint_preserves (RoundRobinLoadBalancer.make endpoints cfg) (selTime 0)
  have hcur1 : (((RoundRobinLoadBalancer.make endpoints cfg).getNextEndpoint (selTime 0)).2).currentIndex = 1 := by
    rw [hstep1]
    show ((RoundRobinLoadBalancer.make endpoints cfg).currentIndex + 1) % (RoundRobinLoadBalancer.make endpoints cfg).endpoints.length = 1
    show (0 + 1) % endpoints.length = 1
    rw [Nat.zero_add, Nat.mod_eq_of_lt h1N]
  rw [forwardRequest, forwardGo_step_retryable 3 client selTime failTime 2
    (RoundRobinLoadBalancer.make endpoints cfg) (((RoundRobinLoadBalancer.make endpoints cfg).getNextEndpoint (selTime 0)).2) 0 none [] (endpoints.getD 0 "") (errOf 0) (by omega) hpair1
    (hclient 0 (by omega)) (hret 0 (by omega)),
    if_neg (by omega : ¬(3 ≤ 0 + 1))]
  have hh1A : (((RoundRobinLoadBalancer.make endpoints cfg).getNextEndpoint (selTime 0)).2).health (endpoints.getD 0 "") =
      some (EndpointHealth.mkFresh (endpoints.getD 0 "") cfg) := by
    rw [hpres1.2.1]
    exact hh0 0 h0N
  rw [markEndpointFailed_eq _ _ (failTime 0) _ hh1A]
  -- attempt 1: selects the fresh endpoint at index 1
  have hendM1 : ((((RoundRobinLoadBalancer.make endpoints cfg).getNextEndpoint (selTime 0)).2).setHealth (endpoints.getD 0 "") ((EndpointHealth.mkFresh (endpoints.getD 0 "") cfg).recordFailure (failTime 0))).endpoints = endpoints := by
    rw [setHealth_endpoints, hpres1.1]
    rfl
  have hcurM1 : ((((RoundRobinLoadBalancer.make endpoints cfg).getNextEndpoint (selTime 0)).2).setHealth (endpoints.getD 0 "") ((EndpointHealth.mkFresh (endpoints.getD 0 "") cfg).recordFailure (failTime 0))).currentIndex = 1 := by
    rw [setHealth_currentIndex, hcur1]
  have hhM1 : ∀ k, k < endpoints.length → k ≠ 0 →
      ((((RoundRobinLoadBalancer.make endpoints cfg).getNextEndpoint (selTime 0)).2).setHealth (endpoints.getD 0 "") ((EndpointHealth.mkFresh (endpoints.getD 0 "") cfg).recordFailure (failTime 0))).health (endpoints.getD k "") =
        some (EndpointHealth.mkFresh (endpoints.getD k "") cfg) := by
    intro k hk hk0
    rw [setHealth_health_ne _ _ _ _ (hgetne k 0 hk h0N hk0), hpres1.2.1]
    exact hh0 k hk
  have hHM1 : ((((RoundRobinLoadBalancer.make endpoints cfg).getNextEndpoint (selTime 0)).2).setHealth (endpoints.getD 0 "") ((EndpointHealth.mkFresh (endpoints.getD 0 "") cfg).recordFailure (failTime 0))).healthyAt (endpoints.getD 1 "") (selTime 1) = true := by
    rw [RoundRobinLoadBalancer.healthyAt, hhM1 1 h1N (by omega)]
    exact mkFresh_isHealthy _ _ _ hth
  have hHM1' : ((((RoundRobinLoadBalancer.make endpoints cfg).getNextEndpoint (selTime 0)).2).setHealth (endpoints.getD 0 "") ((EndpointHealth.mkFresh (endpoints.getD 0 "") cfg).recordFailure (failTime 0))).healthyAt
      (((((RoundRobinLoadBalancer.make endpoints cfg).getNextEndpoint (selTime 0)).2).setHealth (endpoints.getD 0 "") ((EndpointHealth.mkFresh (endpoints.getD 0 "") cfg).recordFailure (failTime 0))).endpoints.getD (((((RoundRobinLoadBalancer.make endpoints cfg).getNextEndpoint (selTime 0)).2).setHealth (endpoints.getD 0 "") ((EndpointHealth.mkFresh (endpoints.getD 0 "") cfg).recordFailure (failTime 0))).currentIndex) "") (selTime 1) = true := by
    rw [hendM1, hcurM1]
    exact hHM1
  have hstep2 := getNextEndpoint_healthy_step ((((RoundRobinLoadBalancer.make endpoints cfg).getNextEndpoint (selTime 0)).2).setHealth (endpoints.getD 0 "") ((EndpointHealth.mkFresh (endpoints.getD 0 "") cfg).recordFailure (failTime 0))) (selTime 1)
    (by rw [hendM1]; omega) (by rw [hendM1, hcurM1]; omega) hHM1'
  have hsel2 : (((((RoundRobinLoadBalancer.make endpoints cfg).getNextEndpoint (selTime 0)).2).setHealth (endpoints.getD 0 "") ((EndpointHealth.mkFresh (endpoints.getD 0 "") cfg).recordFailure (failTime 0))).getNextEndpoint (selTime 1)).1 = some (endpoints.getD 1 "") := by
    rw [hstep2, hendM1, hcurM1]
  have hpair2 := getNextEndpoint_pair ((((RoundRobinLoadBalancer.make endpoints cfg).getNextEndpoint (selTime 0)).2).setHealth (endpoints.getD 0 "") ((EndpointHealth.mkFresh (endpoints.getD 0 "") cfg).recordFailure (failTime 0))) (selTime 1) _ hsel2
  have hpres2 := getNextEndpoint_preserves ((((RoundRobinLoadBalancer.make endpoints cfg).getNextEndpoint (selTime 0)).2).setHealth (endpoints.getD 0 "") ((EndpointHealth.mkFresh (endpoints.getD 0 "") cfg).recordFailure (failTime 0))) (selTime 1)
  have hcurL2 : ((((((RoundRobinLoadBalancer.make endpoints cfg).getNextEndpoint (selTime 0)).2).setHealth (endpoints.getD 0 "") ((EndpointHealth.mkFresh (endpoints.getD 0 "") cfg).recordFailure (failTime 0))).getNextEndpoint (selTime 1)).2).currentIndex = 2 := by
    rw [hstep2]
    show (((((RoundRobinLoadBalancer.make endpoints cfg).getNextEndpoint (selTime 0)).2).setHealth (endpoints.getD 0 "") ((EndpointHealth.mkFresh (endpoints.getD 0 "") cfg).recordFailure (failTime 0))).currentIndex + 1) % ((((RoundRobinLoadBalancer.make endpoints cfg).getNextEndpoint (selTime 0)).2).setHealth (endpoints.getD 0 "") ((EndpointHealth.mkFresh (endpoints.getD 0 "") cfg).recordFailure (failTime 0))).endpoints.length = 2
    rw [hcurM1, hendM1, Nat.mod_eq_of_lt h2N]
  rw [forwardGo_step_retryable 3 client selTime failTime 1
    ((((RoundRobinLoadBalancer.make endpoints cfg).getNextEndpoint (selTime 0)).2).setHealth (endpoints.getD 0 "") ((EndpointHealth.mkFresh (endpoints.getD 0 "") cfg).recordFailure (failTime 0))) ((((((RoundRobinLoadBalancer.make endpoints cfg).getNextEndpoint (selTime 0)).2).setHealth (endpoints.getD 0 "") ((EndpointHealth.mkFresh (endpoints.getD 0 "") cfg).recordFailure (failTime 0))).getNextEndpoint (selTime 1)).2) 1 (some (errOf 0)) ([] ++ [(endpoints.getD 0 "")]) (endpoints.getD 1 "") (errOf 1)
    (by omega) hpair2 (hclient 1 (by omega)) (hret 1 (by omega)),
    if_neg (by omega : ¬(3 ≤ 1 + 1))]
  have hh2B : ((((((RoundRobinLoadBalancer.make endpoints cfg).getNextEndpoint (selTime 0)).2).setHealth (endpoints.getD 0 "") ((EndpointHealth.mkFresh (endpoints.getD 0 "") cfg).recordFailure (failTime 0))).getNextEndpoint (selTime 1)).2).health (endpoints.getD 1 "") =
      some (EndpointHealth.mkFresh (endpoints.getD 1 "") cfg) := by
    rw [hpres2.2.1]
    exact hhM1 1 h1N (by omega)
  rw [markEndpointFailed_eq _ _ (failTime 1) _ hh2B]
  -- attempt 2: selects the fresh endpoint at index 2, then exhausts
  have hendM2 : (((((((RoundRobinLoadBalancer.make endpoints cfg).getNextEndpoint (selTime 0)).2).setHealth (endpoints.getD 0 "") ((EndpointHealth.mkFresh (endpoints.getD 0 "") cfg).recordFailure (failTime 0))).getNextEndpoint (selTime 1)).2).setHealth (endpoints.getD 1 "") ((EndpointHealth.mkFresh (endpoints.getD 1 "") cfg).recordFailure (failTime 1))).endpoints = endpoints := by
    rw [setHealth_endpoints, hpres2.1, hendM1]
  have hcurM2 : (((((((RoundRobinLoadBalancer.make endpoints cfg).getNextEndpoint (selTime 0)).2).setHealth (endpoints.getD 0 "") ((EndpointHealth.mkFresh (endpoints.getD 0 "") cfg).recordFailure (failTime 0))).getNextEndpoint (selTime 1)).2).setHealth (endpoints.getD 1 "") ((EndpointHealth.mkFresh (endpoints.getD 1 "") cfg).recordFailure (failTime 1))).currentIndex = 2 := by
    rw [setHealth_currentIndex, hcurL2]
  have hhM2 : ∀ k, k < endpoints.length → k ≠ 0 → k ≠ 1 →
      (((((((RoundRobinLoadBalancer.make endpoints cfg).getNextEndpoint (selTime 0)).2).setHealth (endpoints.getD 0 "") ((EndpointHealth.mkFresh (endpoints.getD 0 "") cfg).recordFailure (failTime 0))).getNextEndpoint (selTime 1)).2).setHealth (endpoints.getD 1 "") ((EndpointHealth.mkFresh (endpoints.getD 1 "") cfg).recordFailure (failTime 1))).health (endpoints.getD k "") =
        some (EndpointHealth.mkFresh (endpoints.getD k "") cfg) := by
    intro k hk hk0 hk1
    rw [setHealth_health_ne _ _ _ _ (hgetne k 1 hk h1N hk1), hpres2.2.1]
    exact hhM1 k hk hk0
  have hHM2 : (((((((RoundRobinLoadBalancer.make endpoints cfg).getNextEndpoint (selTime 0)).2).setHealth (endpoints.getD 0 "") ((EndpointHealth.mkFresh (endpoints.getD 0 "") cfg).recordFailure (failTime 0))).getNextEndpoint (selTime 1)).2).setHealth (endpoints.getD 1 "") ((EndpointHealth.mkFresh (endpoints.getD 1 "") cfg).recordFailure (failTime 1))).healthyAt (endpoints.getD 2 "") (selTime 2) = true := by
    rw [RoundRobinLoadBalancer.healthyAt, hhM2 2 h2N (by omega) (by omega)]
    exact mkFresh_isHealthy _ _ _ hth
  have hHM2' : (((((((RoundRobinLoadBalancer.make endpoints cfg).getNextEndpoint (selTime 0)).2).setHealth (endpoints.getD 0 "") ((EndpointHealth.mkFresh (endpoints.getD 0 "") cfg).recordFailure (failTime 0))).getNextEndpoint (selTime 1)).2).setHealth (endpoints.getD 1 "") ((EndpointHealth.mkFresh (endpoints.getD 1 "") cfg).recordFailure (failTime 1))).healthyAt
      ((((((((RoundRobinLoadBalancer.make endpoints cfg).getNextEndpoint (selTime 0)).2).setHealth (endpoints.getD 0 "") ((EndpointHealth.mkFresh (endpoints.getD 0 "") cfg).recordFailure (failTime 0))).getNextEndpoint (selTime 1)).2).setHealth (endpoints.getD 1 "") ((EndpointHealth.mkFresh (endpoints.getD 1 "") cfg).recordFailure (failTime 1))).endpoints.getD ((((((((RoundRobinLoadBalancer.make endpoints cfg).getNextEndpoint (selTime 0)).2).setHealth (endpoints.getD 0 "") ((EndpointHealth.mkFresh (endpoints.getD 0 "") cfg).recordFailure (failTime 0))).getNextEndpoint (selTime 1)).2).setHealth (endpoints.getD 1 "") ((EndpointHealth.mkFresh (endpoints.getD 1 "") cfg).recordFailure (failTime 1))).currentIndex) "") (selTime 2) = true := by
    rw [hendM2, hcurM2]
    exact hHM2
  have hstep3 := getNextEndpoint_healthy_step (((((((RoundRobinLoadBalancer.make endpoints cfg).getNextEndpoint (selTime 0)).2).setHealth (endpoints.getD 0 "") ((EndpointHealth.mkFresh (endpoints.getD 0 "") cfg).recordFailure (failTime 0))).getNextEndpoint (selTime 1)).2).setHealth (endpoints.getD 1 "") ((EndpointHealth.mkFresh (endpoints.getD 1 "") cfg).recordFailure (failTime 1))) (selTime 2)
    (by rw [hendM2]; omega) (by rw [hendM2, hcurM2]; omega) hHM2'
  have hsel3 : ((((((((RoundRobinLoadBalancer.make endpoints cfg).getNextEndpoint (selTime 0)).2).setHealth (endpoints.getD 0 "") ((EndpointHealth.mkFresh (endpoints.getD 0 "") cfg).recordFailure (failTime 0))).getNextEndpoint (selTime 1)).2).setHealth (endpoints.getD 1 "") ((EndpointHealth.mkFresh (endpoints.getD 1 "") cfg).recordFailure (failTime 1))).getNextEndpoint (selTime 2)).1 = some (endpoints.getD 2 "") := by
    rw [hstep3, hendM2, hcurM2]
  have hpair3 := getNextEndpoint_pair (((((((RoundRobinLoadBalancer.make endpoints cfg).getNextEndpoint (selTime 0)).2).setHealth (endpoints.getD 0 "") ((EndpointHealth.mkFresh (endpoints.getD 0 "") cfg).recordFailure (failTime 0))).getNextEndpoint (selTime 1)).2).setHealth (endpoints.getD 1 "") ((EndpointHealth.mkFresh (endpoints.getD 1 "") cfg).recordFailure (failTime 1))) (selTime 2) _ hsel3
  have hpres3 := getNextEndpoint_preserves (((((((RoundRobinLoadBalancer.make endpoints cfg).getNextEndpoint (selTime 0)).2).setHealth (endpoints.getD 0 "") ((EndpointHealth.mkFresh (endpoints.getD 0 "") cfg).recordFailure (failTime 0))).getNextEndpoint (selTime 1)).2).setHealth (endpoints.getD 1 "") ((EndpointHealth.mkFresh (endpoints.getD 1 "") cfg).recordFailure (failTime 1))) (selTime 2)
  rw [forwardGo_step_retryable 3 client selTime failTime 0
    (((((((RoundRobinLoadBalancer.make endpoints cfg).getNextEndpoint (selTime 0)).2).setHealth (endpoints.getD 0 "") ((EndpointHealth.mkFresh (endpoints.getD 0 "") cfg).recordFailure (failTime 0))).getNextEndpoint (selTime 1)).2).setHealth (endpoints.getD 1 "") ((EndpointHealth.mkFresh (endpoints.getD 1 "") cfg).recordFailure (failTime 1))) (((((((((RoundRobinLoadBalancer.make endpoints cfg).getNextEndpoint (selTime 0)).2).setHealth (endpoints.getD 0 "") ((EndpointHealth.mkFresh (endpoints.getD 0 "") cfg).recordFailure (failTime 0))).getNextEndpoint (selTime 1)).2).setHealth (endpoints.getD 1 "") ((EndpointHealth.mkFresh (endpoints.getD 1 "") cfg).recordFailure (failTime 1))).getNextEndpoint (selTime 2)).2) 2 (some (errOf 1)) (([] ++ [(endpoints.getD 0 "")]) ++ [(endpoints.getD 1 "")]) (endpoints.getD 2 "")
    (errOf 2) (by omega) hpair3 (hclient 2 (by omega))
    (hret 2 (by omega)),
    if_pos (by omega : 3 ≤ 2 + 1)]
  have hh3C : (((((((((RoundRobinLoadBalancer.make endpoints cfg).getNextEndpoint (selTime 0)).2).setHealth (endpoints.getD 0 "") ((EndpointHealth.mkFresh (endpoints.getD 0 "") cfg).recordFailure (failTime 0))).getNextEndpoint (selTime 1)).2).setHealth (endpoints.getD 1 "") ((EndpointHealth.mkFresh (endpoints.getD 1 "") cfg).recordFailure (failTime 1))).getNextEndpoint (selTime 2)).2).health (endpoints.getD 2 "") =
      some (EndpointHealth.mkFresh (endpoints.getD 2 "") cfg) := by
    rw [hpres3.2.1]
    exact hhM2 2 h2N (by omega) (by omega)
  rw [markEndpointFailed_eq _ _ (failTime 2) _ hh3C]
  refine ⟨rfl, rfl, ?_, ?_, ?_, ?_⟩
  · show ((([] ++ [(endpoints.getD 0 "")]) ++ [(endpoints.getD 1 "")]) ++ [(endpoints.getD 2 "")]).Nodup
    simp only [List.nil_append, List.cons_append, List.nodup_cons,
      List.mem_cons, List.mem_singleton, List.not_mem_nil, or_false,
      not_or, List.nodup_nil, and_true]
    exact ⟨⟨hne01, hne02⟩, ⟨hne12, fun hf => hf⟩⟩
  · rw [RoundRobinLoadBalancer.cfOf,
      setHealth_health_ne _ _ _ _ hne02, hpres3.2.1,
      setHealth_health_ne _ _ _ _ hne01, hpres2.2.1,
      setHealth_health_eq]
    rfl
  · rw [RoundRobinLoadBalancer.cfOf,
      setHealth_health_ne _ _ _ _ hne12, hpres3.2.1,
      setHealth_health_eq]
    rfl
  · rw [RoundRobinLoadBalancer.cfOf, setHealth_health_eq]
    rfl

/-- C8, witness: fresh two-endpoint pool, attempt 0 on "a" answers 500,
attempt 1 on "b" answers 200. -/
theorem retry_and_recover_witness :
    2 ≤ 2 ∧ (["a", "b"] : List String).Nodup ∧
    2 ≤ (["a", "b"] : List String).length ∧
    0 < (3 : Nat) ∧
    (HttpError.mk none "err" (some (ErrResponse.mk 500 none
      none))).response = some (ErrResponse.mk 500 none none) ∧
    (ErrResponse.mk 500 none none).status = 500 ∧
    ((fun k _ => if k = 0 then
        ClientResult.failure (HttpError.mk none "err"
          (some (ErrResponse.mk 500 none none)))
      else ClientResult.success (HttpResponse.mk 200 [] (Body.payload "ok"))
        50) : Nat → String → ClientResult) 0 ((["a", "b"] : List String).getD 0 "") =
      ClientResult.failure (HttpError.mk none "err"
        (some (ErrResponse.mk 500 none none))) ∧
    ((fun k _ => if k = 0 then
        ClientResult.failure (HttpError.mk none "err"
          (some (ErrResponse.mk 500 none none)))
      else ClientResult.success (HttpResponse.mk 200 [] (Body.payload "ok"))
        50) : Nat → String → ClientResult) 1 ((["a", "b"] : List String).getD 1 "") =
      ClientResult.success (HttpResponse.mk 200 [] (Body.payload "ok"))
        50 ∧
    ((forwardRequest 2 ((fun k _ => if k = 0 then
        ClientResult.failure (HttpError.mk none "err"
          (some (ErrResponse.mk 500 none none)))
      else ClientResult.success (HttpResponse.mk 200 [] (Body.payload "ok"))
        50) : Nat → String → ClientResult)
        (fun _ => (0 : Int)) (fun _ => (0 : Int))
        (RoundRobinLoadBalancer.make ["a", "b"] ⟨3, 5000⟩)).1 =
      ForwardOutcome.response (HttpResponse.mk 200 []
        (Body.payload "ok")).status
        (HttpResponse.mk 200 [] (Body.payload "ok")).headers
        (HttpResponse.mk 200 [] (Body.payload "ok")).data ∧
    (forwardRequest 2 ((fun k _ => if k = 0 then
        ClientResult.failure (HttpError.mk none "err"
          (some (ErrResponse.mk 500 none none)))
      else ClientResult.success (HttpResponse.mk 200 [] (Body.payload "ok"))
        50) : Nat → String → ClientResult)
        (fun _ => (0 : Int)) (fun _ => (0 : Int))
        (RoundRobinLoadBalancer.make ["a", "b"] ⟨3, 5000⟩)).2.2 =
      [(["a", "b"] : List String).getD 0 "",
       (["a", "b"] : List String).getD 1 ""] ∧
    ((forwardRequest 2 ((fun k _ => if k = 0 then
        ClientResult.failure (HttpError.mk none "err"
          (some (ErrResponse.mk 500 none none)))
      else ClientResult.success (HttpResponse.mk 200 [] (Body.payload "ok"))
        50) : Nat → String → ClientResult)
        (fun _ => (0 : Int)) (fun _ => (0 : Int))
        (RoundRobinLoadBalancer.make ["a", "b"] ⟨3, 5000⟩)).2.1).cfOf ((["a", "b"] : List String).getD 0 "") = some 1 ∧
    ((forwardRequest 2 ((fun k _ => if k = 0 then
        ClientResult.failure (HttpError.mk none "err"
          (some (ErrResponse.mk 500 none none)))
      else ClientResult.success (HttpResponse.mk 200 [] (Body.payload "ok"))
        50) : Nat → String → ClientResult)
        (fun _ => (0 : Int)) (fun _ => (0 : Int))
        (RoundRobinLoadBalancer.make ["a", "b"] ⟨3, 5000⟩)).2.1).cfOf ((["a", "b"] : List String).getD 1 "") = some 0) :=
  ⟨by decide, by decide, by decide, by decide, rfl, rfl, rfl, rfl,
    retry_and_recover ["a", "b"] ⟨3, 5000⟩ ((fun k _ => if k = 0 then
        ClientResult.failure (HttpError.mk none "err"
          (some (ErrResponse.mk 500 none none)))
      else ClientResult.success (HttpResponse.mk 200 [] (Body.payload "ok"))
        50) : Nat → String → ClientResult)
      (fun _ => (0 : Int)) (fun _ => (0 : Int)) 2 (by decide) (by decide)
      (by decide) (by decide)
      (HttpError.mk none "err" (some (ErrResponse.mk 500 none none)))
      (ErrResponse.mk 500 none none) rfl rfl
      (HttpResponse.mk 200 [] (Body.payload "ok")) 50 rfl rfl⟩

/-- C6 amended, witness: fresh three-endpoint pool, every attempt
answered by a 500 failure. -/
theorem exhaustion_amended_witness :
    (["a", "b", "c"] : List String).Nodup ∧
    3 ≤ (["a", "b", "c"] : List String).length ∧
    0 < (3 : Nat) ∧
    (∀ k < 3, ((fun _ _ => ClientResult.failure (HttpError.mk none "err"
        (some (ErrResponse.mk 500 none none)))) :
      Nat → String → ClientResult) k ((["a", "b", "c"] : List String).getD k "") =
      ClientResult.failure ((fun _ => HttpError.mk none "err"
        (some (ErrResponse.mk 500 none none))) k)) ∧
    (∀ k < 3, ((fun _ => HttpError.mk none "err"
        (some (ErrResponse.mk 500 none none))) k).statusOf =
      some 500) ∧
    ((forwardRequest 3 ((fun _ _ => ClientResult.failure (HttpError.mk none "err"
        (some (ErrResponse.mk 500 none none)))) :
      Nat → String → ClientResult)
        (fun _ => (0 : Int)) (fun _ => (0 : Int))
        (RoundRobinLoadBalancer.make ["a", "b", "c"] ⟨3, 5000⟩)).1 =
      ForwardOutcome.exhausted 3 (some ((fun _ => HttpError.mk none "err"
        (some (ErrResponse.mk 500 none none))) 2)) ∧
    (forwardRequest 3 ((fun _ _ => ClientResult.failure (HttpError.mk none "err"
        (some (ErrResponse.mk 500 none none)))) :
      Nat → String → ClientResult)
        (fun _ => (0 : Int)) (fun _ => (0 : Int))
        (RoundRobinLoadBalancer.make ["a", "b", "c"] ⟨3, 5000⟩)).2.2 =
      [(["a", "b", "c"] : List String).getD 0 "",
       (["a", "b", "c"] : List String).getD 1 "",
       (["a", "b", "c"] : List String).getD 2 ""] ∧
    (forwardRequest 3 ((fun _ _ => ClientResult.failure (HttpError.mk none "err"
        (some (ErrResponse.mk 500 none none)))) :
      Nat → String → ClientResult)
        (fun _ => (0 : Int)) (fun _ => (0 : Int))
        (RoundRobinLoadBalancer.make ["a", "b", "c"] ⟨3, 5000⟩)).2.2.Nodup ∧
    ((forwardRequest 3 ((fun _ _ => ClientResult.failure (HttpError.mk none "err"
        (some (ErrResponse.mk 500 none none)))) :
      Nat → String → ClientResult)
        (fun _ => (0 : Int)) (fun _ => (0 : Int))
        (RoundRobinLoadBalancer.make ["a", "b", "c"] ⟨3, 5000⟩)).2.1).cfOf ((["a", "b", "c"] : List String).getD 0 "") =
      some 1 ∧
    ((forwardRequest 3 ((fun _ _ => ClientResult.failure (HttpError.mk none "err"
        (some (ErrResponse.mk 500 none none)))) :
      Nat → String → ClientResult)
        (fun _ => (0 : Int)) (fun _ => (0 : Int))
        (RoundRobinLoadBalancer.make ["a", "b", "c"] ⟨3, 5000⟩)).2.1).cfOf ((["a", "b", "c"] : List String).getD 1 "") =
      some 1 ∧
    ((forwardRequest 3 ((fun _ _ => ClientResult.failure (HttpError.mk none "err"
        (some (ErrResponse.mk 500 none none)))) :
      Nat → String → ClientResult)
        (fun _ => (0 : Int)) (fun _ => (0 : Int))
        (RoundRobinLoadBalancer.make ["a", "b", "c"] ⟨3, 5000⟩)).2.1).cfOf ((["a", "b", "c"] : List String).getD 2 "") =
      some 1) :=
  ⟨by decide, by decide, by decide, by decide, by decide,
    exhaustion_amended ["a", "b", "c"] ⟨3, 5000⟩ ((fun _ _ => ClientResult.failure (HttpError.mk none "err"
        (some (ErrResponse.mk 500 none none)))) :
      Nat → String → ClientResult)
      (fun _ => (0 : Int)) (fun _ => (0 : Int)) (by decide) (by decide)
      (by decide)
      (fun _ => HttpError.mk none "err"
        (some (ErrResponse.mk 500 none none)))
      (by decide) (by decide)⟩

end LoadBalancer
